import Mathlib

/-!
Verification of the toolapi connection/protocol layer against its design
specification.

The development shallowly embeds the steady-state modules of the repository:

* `src/value/mod.rs` — the dynamic `Value` payload model (atomic leaves,
  domain-structured leaves, dynamic and homogeneous collections);
* `src/value/extract.rs` — the path-based extraction algorithm (`Value::_get`,
  `get_list`, `get_dict`, `get_typed_list`, `get_typed_dict`, `Pointer`);
* `src/connection/websocket/common.rs` — the wire `Message` enum and the
  `serialize` / `deserialize` codec together with the `TryFrom` frame
  conversions;
* `src/connection/websocket/sync.rs` and `async.rs` — the buffered,
  type-filtered channel endpoints (`WsChannelSync`, `WsChannelAsync`);
* `src/connection/channel.rs` — the cross-thread bridge (`Sender`,
  `Receiver`);
* `src/util.rs` — the session orchestrator loop (`tool_handler`).

Rust `f64` payloads are carried opaquely as their 64-bit pattern (a `Nat`):
the codec and the extraction algorithm move floats around but never compute
with them, so bit-pattern identity is the right notion of structural
equality.  `HashMap` fields are embedded as association lists.  Types that
the external serialization libraries provide (the MessagePack byte format of
`rmp_serde` and the zstd compression of `ruzstd`) are not part of the
repository; they are modelled from the spec where noted.
-/

namespace ToolApi

/-! ## Value model (`src/value/mod.rs`) -/

/-- Bit pattern of a Rust `f64` (`atomic::Float`), carried opaquely. -/
abbrev F64 := Nat

/-- Model of `num_complex::Complex64` (`atomic::Complex`): two `f64` payloads. -/
structure Complex where
  re : F64
  im : F64
deriving DecidableEq

/-- Model of `atomic::Vec3` (`[f64; 3]`). -/
structure Vec3 where
  x : F64
  y : F64
  z : F64
deriving DecidableEq

/-- Model of `atomic::Vec4` (`[f64; 4]`). -/
structure Vec4 where
  x : F64
  y : F64
  z : F64
  w : F64
deriving DecidableEq

/-- Model of the `[[f64; 4]; 3]` affine matrix of `structured::Volume`. -/
structure Affine where
  r0 : Vec4
  r1 : Vec4
  r2 : Vec4
deriving DecidableEq

/-- Model of the `[u64; 3]` voxel shape of `structured::Volume`. -/
structure Shape3 where
  s0 : Nat
  s1 : Nat
  s2 : Nat
deriving DecidableEq

/-- Model of `structured::InstantSeqEvent` (`Pulse` / `Fid` / `Adc`). -/
inductive InstantSeqEvent
  | pulse (angle : F64) (phase : F64)
  | fid (kt : Vec4)
  | adc (phase : F64)
deriving DecidableEq

mutual

/-- Model of `structured::Volume`: voxel shape, affine, and a homogeneous
`TypedList` of voxel data. -/
inductive Volume
  | mk (shape : Shape3) (affine : Affine) (data : TypedList)

/-- Model of `structured::PhantomTissue`: two `Volume`s and four scalars. -/
inductive PhantomTissue
  | mk (density : Volume) (db0 : Volume) (t1 : F64) (t2 : F64)
      (t2dash : F64) (adc : F64)

/-- Model of `structured::SegmentedPhantom`: tissues and B1 maps. -/
inductive SegmentedPhantom
  | mk (tissues : TissueList) (b1Tx : VolumeList) (b1Rx : VolumeList)

/-- `Vec<Volume>` written as a first-order list (it participates in the
mutual recursion, so the generic `List` cannot be used here). -/
inductive VolumeList
  | nil
  | cons (head : Volume) (tail : VolumeList)

/-- `Vec<PhantomTissue>` as a first-order list. -/
inductive TissueList
  | nil
  | cons (head : PhantomTissue) (tail : TissueList)

/-- `Vec<SegmentedPhantom>` as a first-order list. -/
inductive SegList
  | nil
  | cons (head : SegmentedPhantom) (tail : SegList)

/-- `HashMap<String, Volume>` as a first-order association list. -/
inductive VolumeAList
  | nil
  | cons (key : String) (val : Volume) (tail : VolumeAList)

/-- `HashMap<String, PhantomTissue>` as a first-order association list. -/
inductive TissueAList
  | nil
  | cons (key : String) (val : PhantomTissue) (tail : TissueAList)

/-- `HashMap<String, SegmentedPhantom>` as a first-order association list. -/
inductive SegAList
  | nil
  | cons (key : String) (val : SegmentedPhantom) (tail : SegAList)

/-- Model of `typed::TypedList`: a homogeneous list, one variant per element
type, in source order. -/
inductive TypedList
  | none (items : List Unit)
  | bool (items : List Bool)
  | int (items : List Int)
  | float (items : List F64)
  | complex (items : List Complex)
  | vec3 (items : List Vec3)
  | vec4 (items : List Vec4)
  | str (items : List String)
  | instantSeqEvent (items : List InstantSeqEvent)
  | volume (items : VolumeList)
  | segmentedPhantom (items : SegList)
  | phantomTissue (items : TissueList)

/-- Model of `typed::TypedDict`: a homogeneous string-keyed mapping, one
variant per element type, in source order. -/
inductive TypedDict
  | none (items : List (String × Unit))
  | bool (items : List (String × Bool))
  | int (items : List (String × Int))
  | float (items : List (String × F64))
  | complex (items : List (String × Complex))
  | vec3 (items : List (String × Vec3))
  | vec4 (items : List (String × Vec4))
  | str (items : List (String × String))
  | instantSeqEvent (items : List (String × InstantSeqEvent))
  | volume (items : VolumeAList)
  | segmentedPhantom (items : SegAList)
  | phantomTissue (items : TissueAList)

end

mutual

/-- Model of `Value` (`src/value/mod.rs`), variants in source order.  The
atomic newtypes (`atomic::None`, `atomic::Bool`, …) are inlined into their
payloads. -/
inductive Value
  | none
  | bool (b : Bool)
  | int (i : Int)
  | float (f : F64)
  | complex (c : Complex)
  | vec3 (v : Vec3)
  | vec4 (v : Vec4)
  | str (s : String)
  | instantSeqEvent (e : InstantSeqEvent)
  | volume (v : Volume)
  | segmentedPhantom (p : SegmentedPhantom)
  | phantomTissue (t : PhantomTissue)
  | dict (entries : ValueEntries)
  | list (items : ValueList)
  | typedDict (d : TypedDict)
  | typedList (l : TypedList)

/-- `dynamic::List` (`Vec<Value>`) as a first-order list. -/
inductive ValueList
  | nil
  | cons (head : Value) (tail : ValueList)

/-- `dynamic::Dict` (`HashMap<String, Value>`) as a first-order association
list. -/
inductive ValueEntries
  | nil
  | cons (key : String) (val : Value) (tail : ValueEntries)

end

/-- Modelled from the spec: `ValueDict` is re-exported by `lib.rs` but its
definition is not under `src/`; the spec describes it as "a string-keyed
mapping of top-level Values", so it is embedded as the same association-list
shape as a dynamic dict. -/
abbrev ValueDict := ValueEntries

/-! ## Error taxonomy (`src/error.rs`) -/

/-- Model of `AbortReason` as used by `src/connection/channel.rs` (the
channel-error payload is the stringified send error). -/
inductive AbortReason
  | requestedByClient
  | channelError (msg : String)
  | connectionClosed
deriving DecidableEq

/-- Model of `ExtractionError`.  `TypeMismatch` carries the two type names. -/
inductive ExtractionError
  | typeMismatch (from_ : String) (into : String)
  | tooMuchNesting
  | indexOutOfBounds
  | keyNotFound
  | indexForDict
  | keyForList
deriving DecidableEq

/-- Model of `ToolError`, the only error kind that crosses the wire. -/
inductive ToolError
  | abort
  | custom (msg : String)

/-- Model of `WsMessageType` (used in wrong-frame-kind errors). -/
inductive WsMessageType
  | text
  | binary
  | ping
  | pong
  | close
deriving DecidableEq

/-- Model of `ParseError`; library error payloads are carried as strings. -/
inductive ParseError
  | serializationError (msg : String)
  | deserializationError (msg : String)
  | compressionError (msg : String)
  | decompressionError (msg : String)
  | wrongMessageType (expected : WsMessageType) (found : WsMessageType)

/-- Model of `ConnectionError` (the variants the embedded modules use). -/
inductive ConnectionError
  | webSocketError (msg : String)
  | parseError (e : ParseError)
  | connectionClosed
  | toolPanicked (msg : String)

/-! ## Wire messages (`src/connection/websocket/common.rs`) -/

/-- Model of the wire `Message` enum: the tagged union shared verbatim by
both ends of the connection.  `Result<ValueDict, ToolError>` is embedded as
`Except ToolError ValueDict`. -/
inductive Message
  | values (d : ValueDict)
  | result (r : Except ToolError ValueDict)
  | message (s : String)
  | abort

/-! ## Binary codec

Modelled from the spec: the byte-level encoding is produced by the external
crates `rmp_serde` (MessagePack serialization of the serde-derived tagged
union) and `ruzstd` (zstd compression), whose code is not part of this
repository.  Following the spec's contract — "serialize the tagged union to
a compact binary form, then compress the result; decoding reverses both
steps" — serialization is embedded as a tag-discriminated token stream (one
token per atomic field, an explicit discriminant consumed first by the
decoder) and compression as run-length coding of equal adjacent tokens.
`serialize` and `deserialize` below then follow `common.rs` literally:
serialize-then-compress, decompress-then-deserialize, with the same error
routing. -/

/-- One atom of the serialized form: a constructor discriminant or a field
payload. -/
inductive Tok
  | tag (n : Nat)
  | nat (n : Nat)
  | int (i : Int)
  | f64 (bits : F64)
  | str (s : String)
  | bool (b : Bool)
deriving DecidableEq

/-! ### Field-level encoders and decoders -/

/-- Encode a `()` payload (`atomic::None` unit struct): no tokens. -/
def encUnit : Unit → List Tok
  | () => []

def decUnit (toks : List Tok) : Option (Unit × List Tok) :=
  some ((), toks)

def encBoolF (b : Bool) : List Tok := [.bool b]

def decBoolF : List Tok → Option (Bool × List Tok)
  | .bool b :: rest => some (b, rest)
  | _ => none

def encIntF (i : Int) : List Tok := [.int i]

def decIntF : List Tok → Option (Int × List Tok)
  | .int i :: rest => some (i, rest)
  | _ => none

def encF64F (f : F64) : List Tok := [.f64 f]

def decF64F : List Tok → Option (F64 × List Tok)
  | .f64 f :: rest => some (f, rest)
  | _ => none

def encStrF (s : String) : List Tok := [.str s]

def decStrF : List Tok → Option (String × List Tok)
  | .str s :: rest => some (s, rest)
  | _ => none

def encNatF (n : Nat) : List Tok := [.nat n]

def decNatF : List Tok → Option (Nat × List Tok)
  | .nat n :: rest => some (n, rest)
  | _ => none

def encComplexF (c : Complex) : List Tok := [.f64 c.re, .f64 c.im]

def decComplexF : List Tok → Option (Complex × List Tok)
  | .f64 re :: .f64 im :: rest => some (⟨re, im⟩, rest)
  | _ => none

def encVec3F (v : Vec3) : List Tok := [.f64 v.x, .f64 v.y, .f64 v.z]

def decVec3F : List Tok → Option (Vec3 × List Tok)
  | .f64 x :: .f64 y :: .f64 z :: rest => some (⟨x, y, z⟩, rest)
  | _ => none

def encVec4F (v : Vec4) : List Tok := [.f64 v.x, .f64 v.y, .f64 v.z, .f64 v.w]

def decVec4F : List Tok → Option (Vec4 × List Tok)
  | .f64 x :: .f64 y :: .f64 z :: .f64 w :: rest => some (⟨x, y, z, w⟩, rest)
  | _ => none

def encAffineF (a : Affine) : List Tok :=
  encVec4F a.r0 ++ encVec4F a.r1 ++ encVec4F a.r2

def decAffineF (toks : List Tok) : Option (Affine × List Tok) :=
  match decVec4F toks with
  | Option.none => none
  | some (r0, t1) =>
    match decVec4F t1 with
    | Option.none => none
    | some (r1, t2) =>
      match decVec4F t2 with
      | Option.none => none
      | some (r2, t3) => some (⟨r0, r1, r2⟩, t3)

def encShape3F (s : Shape3) : List Tok := [.nat s.s0, .nat s.s1, .nat s.s2]

def decShape3F : List Tok → Option (Shape3 × List Tok)
  | .nat a :: .nat b :: .nat c :: rest => some (⟨a, b, c⟩, rest)
  | _ => none

def encISE : InstantSeqEvent → List Tok
  | .pulse angle phase => [.tag 0, .f64 angle, .f64 phase]
  | .fid kt => .tag 1 :: encVec4F kt
  | .adc phase => [.tag 2, .f64 phase]

def decISE : List Tok → Option (InstantSeqEvent × List Tok)
  | .tag 0 :: .f64 angle :: .f64 phase :: rest => some (.pulse angle phase, rest)
  | .tag 1 :: rest =>
    match decVec4F rest with
    | Option.none => none
    | some (kt, r1) => some (.fid kt, r1)
  | .tag 2 :: .f64 phase :: rest => some (.adc phase, rest)
  | _ => none

/-! ### Generic encoders for flat collections -/

/-- Encode a `List` of non-recursive elements, one cons/nil tag per node. -/
def encList (enc : α → List Tok) : List α → List Tok
  | [] => [.tag 0]
  | x :: xs => .tag 1 :: enc x ++ encList enc xs

/-- Fueled decoder matching `encList`. -/
def decList (dec : List Tok → Option (α × List Tok)) :
    Nat → List Tok → Option (List α × List Tok)
  | _, .tag 0 :: rest => some ([], rest)
  | fuel+1, .tag 1 :: rest =>
    match dec rest with
    | Option.none => none
    | some (x, r1) =>
      match decList dec fuel r1 with
      | Option.none => none
      | some (xs, r2) => some (x :: xs, r2)
  | _, _ => none

/-- Encode an association list of non-recursive values. -/
def encAList (enc : α → List Tok) : List (String × α) → List Tok
  | [] => [.tag 0]
  | (k, v) :: xs => .tag 1 :: .str k :: enc v ++ encAList enc xs

/-- Fueled decoder matching `encAList`. -/
def decAList (dec : List Tok → Option (α × List Tok)) :
    Nat → List Tok → Option (List (String × α) × List Tok)
  | _, .tag 0 :: rest => some ([], rest)
  | fuel+1, .tag 1 :: .str k :: rest =>
    match dec rest with
    | Option.none => none
    | some (v, r1) =>
      match decAList dec fuel r1 with
      | Option.none => none
      | some (xs, r2) => some ((k, v) :: xs, r2)
  | _, _ => none

/-! ### Serializers for the recursive types -/

mutual

def encVolume : Volume → List Tok
  | .mk shape affine data =>
    .tag 0 :: (encShape3F shape ++ encAffineF affine ++ encTypedList data)

def encPhantomTissue : PhantomTissue → List Tok
  | .mk density db0 t1 t2 t2dash adc =>
    .tag 0 :: (encVolume density ++ encVolume db0 ++
      [.f64 t1, .f64 t2, .f64 t2dash, .f64 adc])

def encSegmentedPhantom : SegmentedPhantom → List Tok
  | .mk tissues b1Tx b1Rx =>
    .tag 0 :: (encTissueList tissues ++ encVolumeList b1Tx ++ encVolumeList b1Rx)

def encVolumeList : VolumeList → List Tok
  | .nil => [.tag 0]
  | .cons h t => .tag 1 :: (encVolume h ++ encVolumeList t)

def encTissueList : TissueList → List Tok
  | .nil => [.tag 0]
  | .cons h t => .tag 1 :: (encPhantomTissue h ++ encTissueList t)

def encSegList : SegList → List Tok
  | .nil => [.tag 0]
  | .cons h t => .tag 1 :: (encSegmentedPhantom h ++ encSegList t)

def encVolumeAList : VolumeAList → List Tok
  | .nil => [.tag 0]
  | .cons k v t => .tag 1 :: .str k :: (encVolume v ++ encVolumeAList t)

def encTissueAList : TissueAList → List Tok
  | .nil => [.tag 0]
  | .cons k v t => .tag 1 :: .str k :: (encPhantomTissue v ++ encTissueAList t)

def encSegAList : SegAList → List Tok
  | .nil => [.tag 0]
  | .cons k v t => .tag 1 :: .str k :: (encSegmentedPhantom v ++ encSegAList t)

def encTypedList : TypedList → List Tok
  | .none items => .tag 0 :: encList encUnit items
  | .bool items => .tag 1 :: encList encBoolF items
  | .int items => .tag 2 :: encList encIntF items
  | .float items => .tag 3 :: encList encF64F items
  | .complex items => .tag 4 :: encList encComplexF items
  | .vec3 items => .tag 5 :: encList encVec3F items
  | .vec4 items => .tag 6 :: encList encVec4F items
  | .str items => .tag 7 :: encList encStrF items
  | .instantSeqEvent items => .tag 8 :: encList encISE items
  | .volume items => .tag 9 :: encVolumeList items
  | .segmentedPhantom items => .tag 10 :: encSegList items
  | .phantomTissue items => .tag 11 :: encTissueList items

def encTypedDict : TypedDict → List Tok
  | .none items => .tag 0 :: encAList encUnit items
  | .bool items => .tag 1 :: encAList encBoolF items
  | .int items => .tag 2 :: encAList encIntF items
  | .float items => .tag 3 :: encAList encF64F items
  | .complex items => .tag 4 :: encAList encComplexF items
  | .vec3 items => .tag 5 :: encAList encVec3F items
  | .vec4 items => .tag 6 :: encAList encVec4F items
  | .str items => .tag 7 :: encAList encStrF items
  | .instantSeqEvent items => .tag 8 :: encAList encISE items
  | .volume items => .tag 9 :: encVolumeAList items
  | .segmentedPhantom items => .tag 10 :: encSegAList items
  | .phantomTissue items => .tag 11 :: encTissueAList items

end

mutual

def encValue : Value → List Tok
  | .none => [.tag 0]
  | .bool b => [.tag 1, .bool b]
  | .int i => [.tag 2, .int i]
  | .float f => [.tag 3, .f64 f]
  | .complex c => .tag 4 :: encComplexF c
  | .vec3 v => .tag 5 :: encVec3F v
  | .vec4 v => .tag 6 :: encVec4F v
  | .str s => [.tag 7, .str s]
  | .instantSeqEvent e => .tag 8 :: encISE e
  | .volume v => .tag 9 :: encVolume v
  | .segmentedPhantom p => .tag 10 :: encSegmentedPhantom p
  | .phantomTissue t => .tag 11 :: encPhantomTissue t
  | .dict entries => .tag 12 :: encValueEntries entries
  | .list items => .tag 13 :: encValueList items
  | .typedDict d => .tag 14 :: encTypedDict d
  | .typedList l => .tag 15 :: encTypedList l

def encValueList : ValueList → List Tok
  | .nil => [.tag 0]
  | .cons h t => .tag 1 :: (encValue h ++ encValueList t)

def encValueEntries : ValueEntries → List Tok
  | .nil => [.tag 0]
  | .cons k v t => .tag 1 :: .str k :: (encValue v ++ encValueEntries t)

end

def encToolError : ToolError → List Tok
  | .abort => [.tag 0]
  | .custom msg => [.tag 1, .str msg]

def encMessage : Message → List Tok
  | .values d => .tag 0 :: encValueEntries d
  | .result (.ok d) => .tag 1 :: .tag 0 :: encValueEntries d
  | .result (.error e) => .tag 1 :: .tag 1 :: encToolError e
  | .message s => [.tag 2, .str s]
  | .abort => [.tag 3]

/-! ### Fueled deserializers for the recursive types

The fuel argument only serves termination; `deserialize` below instantiates
it with one more than the token count of its input, which is always enough
because every constructor consumes at least one token. -/

mutual

def decVolume : Nat → List Tok → Option (Volume × List Tok)
  | fuel+1, .tag 0 :: rest =>
    match decShape3F rest with
    | Option.none => none
    | some (shape, r1) =>
      match decAffineF r1 with
      | Option.none => none
      | some (affine, r2) =>
        match decTypedList fuel r2 with
        | Option.none => none
        | some (data, r3) => some (.mk shape affine data, r3)
  | _, _ => none

def decPhantomTissue : Nat → List Tok → Option (PhantomTissue × List Tok)
  | fuel+1, .tag 0 :: rest =>
    match decVolume fuel rest with
    | Option.none => none
    | some (density, r1) =>
      match decVolume fuel r1 with
      | Option.none => none
      | some (db0, r2) =>
        match r2 with
        | .f64 t1 :: .f64 t2 :: .f64 t2dash :: .f64 adc :: r3 =>
          some (.mk density db0 t1 t2 t2dash adc, r3)
        | _ => none
  | _, _ => none

def decSegmentedPhantom : Nat → List Tok → Option (SegmentedPhantom × List Tok)
  | fuel+1, .tag 0 :: rest =>
    match decTissueList fuel rest with
    | Option.none => none
    | some (tissues, r1) =>
      match decVolumeList fuel r1 with
      | Option.none => none
      | some (b1Tx, r2) =>
        match decVolumeList fuel r2 with
        | Option.none => none
        | some (b1Rx, r3) => some (.mk tissues b1Tx b1Rx, r3)
  | _, _ => none

def decVolumeList : Nat → List Tok → Option (VolumeList × List Tok)
  | _, .tag 0 :: rest => some (.nil, rest)
  | fuel+1, .tag 1 :: rest =>
    match decVolume fuel rest with
    | Option.none => none
    | some (h, r1) =>
      match decVolumeList fuel r1 with
      | Option.none => none
      | some (t, r2) => some (.cons h t, r2)
  | _, _ => none

def decTissueList : Nat → List Tok → Option (TissueList × List Tok)
  | _, .tag 0 :: rest => some (.nil, rest)
  | fuel+1, .tag 1 :: rest =>
    match decPhantomTissue fuel rest with
    | Option.none => none
    | some (h, r1) =>
      match decTissueList fuel r1 with
      | Option.none => none
      | some (t, r2) => some (.cons h t, r2)
  | _, _ => none

def decSegList : Nat → List Tok → Option (SegList × List Tok)
  | _, .tag 0 :: rest => some (.nil, rest)
  | fuel+1, .tag 1 :: rest =>
    match decSegmentedPhantom fuel rest with
    | Option.none => none
    | some (h, r1) =>
      match decSegList fuel r1 with
      | Option.none => none
      | some (t, r2) => some (.cons h t, r2)
  | _, _ => none

def decVolumeAList : Nat → List Tok → Option (VolumeAList × List Tok)
  | _, .tag 0 :: rest => some (.nil, rest)
  | fuel+1, .tag 1 :: .str k :: rest =>
    match decVolume fuel rest with
    | Option.none => none
    | some (v, r1) =>
      match decVolumeAList fuel r1 with
      | Option.none => none
      | some (t, r2) => some (.cons k v t, r2)
  | _, _ => none

def decTissueAList : Nat → List Tok → Option (TissueAList × List Tok)
  | _, .tag 0 :: rest => some (.nil, rest)
  | fuel+1, .tag 1 :: .str k :: rest =>
    match decPhantomTissue fuel rest with
    | Option.none => none
    | some (v, r1) =>
      match decTissueAList fuel r1 with
      | Option.none => none
      | some (t, r2) => some (.cons k v t, r2)
  | _, _ => none

def decSegAList : Nat → List Tok → Option (SegAList × List Tok)
  | _, .tag 0 :: rest => some (.nil, rest)
  | fuel+1, .tag 1 :: .str k :: rest =>
    match decSegmentedPhantom fuel rest with
    | Option.none => none
    | some (v, r1) =>
      match decSegAList fuel r1 with
      | Option.none => none
      | some (t, r2) => some (.cons k v t, r2)
  | _, _ => none

def decTypedList : Nat → List Tok → Option (TypedList × List Tok)
  | fuel+1, .tag 0 :: rest =>
    match decList decUnit fuel rest with
    | Option.none => none
    | some (xs, r) => some (.none xs, r)
  | fuel+1, .tag 1 :: rest =>
    match decList decBoolF fuel rest with
    | Option.none => none
    | some (xs, r) => some (.bool xs, r)
  | fuel+1, .tag 2 :: rest =>
    match decList decIntF fuel rest with
    | Option.none => none
    | some (xs, r) => some (.int xs, r)
  | fuel+1, .tag 3 :: rest =>
    match decList decF64F fuel rest with
    | Option.none => none
    | some (xs, r) => some (.float xs, r)
  | fuel+1, .tag 4 :: rest =>
    match decList decComplexF fuel rest with
    | Option.none => none
    | some (xs, r) => some (.complex xs, r)
  | fuel+1, .tag 5 :: rest =>
    match decList decVec3F fuel rest with
    | Option.none => none
    | some (xs, r) => some (.vec3 xs, r)
  | fuel+1, .tag 6 :: rest =>
    match decList decVec4F fuel rest with
    | Option.none => none
    | some (xs, r) => some (.vec4 xs, r)
  | fuel+1, .tag 7 :: rest =>
    match decList decStrF fuel rest with
    | Option.none => none
    | some (xs, r) => some (.str xs, r)
  | fuel+1, .tag 8 :: rest =>
    match decList decISE fuel rest with
    | Option.none => none
    | some (xs, r) => some (.instantSeqEvent xs, r)
  | fuel+1, .tag 9 :: rest =>
    match decVolumeList fuel rest with
    | Option.none => none
    | some (xs, r) => some (.volume xs, r)
  | fuel+1, .tag 10 :: rest =>
    match decSegList fuel rest with
    | Option.none => none
    | some (xs, r) => some (.segmentedPhantom xs, r)
  | fuel+1, .tag 11 :: rest =>
    match decTissueList fuel rest with
    | Option.none => none
    | some (xs, r) => some (.phantomTissue xs, r)
  | _, _ => none

def decTypedDict : Nat → List Tok → Option (TypedDict × List Tok)
  | fuel+1, .tag 0 :: rest =>
    match decAList decUnit fuel rest with
    | Option.none => none
    | some (xs, r) => some (.none xs, r)
  | fuel+1, .tag 1 :: rest =>
    match decAList decBoolF fuel rest with
    | Option.none => none
    | some (xs, r) => some (.bool xs, r)
  | fuel+1, .tag 2 :: rest =>
    match decAList decIntF fuel rest with
    | Option.none => none
    | some (xs, r) => some (.int xs, r)
  | fuel+1, .tag 3 :: rest =>
    match decAList decF64F fuel rest with
    | Option.none => none
    | some (xs, r) => some (.float xs, r)
  | fuel+1, .tag 4 :: rest =>
    match decAList decComplexF fuel rest with
    | Option.none => none
    | some (xs, r) => some (.complex xs, r)
  | fuel+1, .tag 5 :: rest =>
    match decAList decVec3F fuel rest with
    | Option.none => none
    | some (xs, r) => some (.vec3 xs, r)
  | fuel+1, .tag 6 :: rest =>
    match decAList decVec4F fuel rest with
    | Option.none => none
    | some (xs, r) => some (.vec4 xs, r)
  | fuel+1, .tag 7 :: rest =>
    match decAList decStrF fuel rest with
    | Option.none => none
    | some (xs, r) => some (.str xs, r)
  | fuel+1, .tag 8 :: rest =>
    match decAList decISE fuel rest with
    | Option.none => none
    | some (xs, r) => some (.instantSeqEvent xs, r)
  | fuel+1, .tag 9 :: rest =>
    match decVolumeAList fuel rest with
    | Option.none => none
    | some (xs, r) => some (.volume xs, r)
  | fuel+1, .tag 10 :: rest =>
    match decSegAList fuel rest with
    | Option.none => none
    | some (xs, r) => some (.segmentedPhantom xs, r)
  | fuel+1, .tag 11 :: rest =>
    match decTissueAList fuel rest with
    | Option.none => none
    | some (xs, r) => some (.phantomTissue xs, r)
  | _, _ => none

end

mutual

def decValue : Nat → List Tok → Option (Value × List Tok)
  | _, .tag 0 :: rest => some (.none, rest)
  | _, .tag 1 :: .bool b :: rest => some (.bool b, rest)
  | _, .tag 2 :: .int i :: rest => some (.int i, rest)
  | _, .tag 3 :: .f64 f :: rest => some (.float f, rest)
  | _, .tag 4 :: rest =>
    match decComplexF rest with
    | Option.none => none
    | some (c, r) => some (.complex c, r)
  | _, .tag 5 :: rest =>
    match decVec3F rest with
    | Option.none => none
    | some (v, r) => some (.vec3 v, r)
  | _, .tag 6 :: rest =>
    match decVec4F rest with
    | Option.none => none
    | some (v, r) => some (.vec4 v, r)
  | _, .tag 7 :: .str s :: rest => some (.str s, rest)
  | _, .tag 8 :: rest =>
    match decISE rest with
    | Option.none => none
    | some (e, r) => some (.instantSeqEvent e, r)
  | fuel+1, .tag 9 :: rest =>
    match decVolume fuel rest with
    | Option.none => none
    | some (v, r) => some (.volume v, r)
  | fuel+1, .tag 10 :: rest =>
    match decSegmentedPhantom fuel rest with
    | Option.none => none
    | some (p, r) => some (.segmentedPhantom p, r)
  | fuel+1, .tag 11 :: rest =>
    match decPhantomTissue fuel rest with
    | Option.none => none
    | some (t, r) => some (.phantomTissue t, r)
  | fuel+1, .tag 12 :: rest =>
    match decValueEntries fuel rest with
    | Option.none => none
    | some (entries, r) => some (.dict entries, r)
  | fuel+1, .tag 13 :: rest =>
    match decValueList fuel rest with
    | Option.none => none
    | some (items, r) => some (.list items, r)
  | fuel+1, .tag 14 :: rest =>
    match decTypedDict fuel rest with
    | Option.none => none
    | some (d, r) => some (.typedDict d, r)
  | fuel+1, .tag 15 :: rest =>
    match decTypedList fuel rest with
    | Option.none => none
    | some (l, r) => some (.typedList l, r)
  | _, _ => none

def decValueList : Nat → List Tok → Option (ValueList × List Tok)
  | _, .tag 0 :: rest => some (.nil, rest)
  | fuel+1, .tag 1 :: rest =>
    match decValue fuel rest with
    | Option.none => none
    | some (h, r1) =>
      match decValueList fuel r1 with
      | Option.none => none
      | some (t, r2) => some (.cons h t, r2)
  | _, _ => none

def decValueEntries : Nat → List Tok → Option (ValueEntries × List Tok)
  | _, .tag 0 :: rest => some (.nil, rest)
  | fuel+1, .tag 1 :: .str k :: rest =>
    match decValue fuel rest with
    | Option.none => none
    | some (v, r1) =>
      match decValueEntries fuel r1 with
      | Option.none => none
      | some (t, r2) => some (.cons k v t, r2)
  | _, _ => none

end

def decToolError : List Tok → Option (ToolError × List Tok)
  | .tag 0 :: rest => some (.abort, rest)
  | .tag 1 :: .str msg :: rest => some (.custom msg, rest)
  | _ => none

def decMessage (fuel : Nat) : List Tok → Option (Message × List Tok)
  | .tag 0 :: rest =>
    match decValueEntries fuel rest with
    | Option.none => none
    | some (d, r) => some (.values d, r)
  | .tag 1 :: .tag 0 :: rest =>
    match decValueEntries fuel rest with
    | Option.none => none
    | some (d, r) => some (.result (.ok d), r)
  | .tag 1 :: .tag 1 :: rest =>
    match decToolError rest with
    | Option.none => none
    | some (e, r) => some (.result (.error e), r)
  | .tag 2 :: .str s :: rest => some (.message s, rest)
  | .tag 3 :: rest => some (.abort, rest)
  | _ => none

/-! ### Compression (`ruzstd`, modelled from the spec)

Modelled from the spec: `ruzstd::encoding::compress_to_vec` is an external
crate.  Its two properties visible in `common.rs` are that compression is
infallible (it returns a plain `Vec<u8>`) and that `StreamingDecoder`-based
decompression both inverts it and can fail on corrupt input.  Run-length
coding of equal adjacent tokens realizes exactly that interface. -/

/-- The compressed wire form: runs of repeated tokens. -/
abbrev Wire := List (Nat × Tok)

/-- Run-length compress a token stream.  Total, as in the source, where
`compress_to_vec` returns a plain `Vec<u8>`. -/
def compress : List Tok → Wire
  | [] => []
  | t :: ts =>
    match compress ts with
    | (n, u) :: runs => if t = u then (n + 1, u) :: runs else (1, t) :: (n, u) :: runs
    | [] => [(1, t)]

/-- Decompress a run-length stream; a run of length zero is a corrupt
stream (the decompression-error case). -/
def decompress : Wire → Option (List Tok)
  | [] => some []
  | (0, _) :: _ => none
  | (n+1, t) :: runs =>
    match decompress runs with
    | Option.none => none
    | some ts => some (List.replicate (n + 1) t ++ ts)

/-! ### The codec of `common.rs` -/

/-- Model of `serialize` in `common.rs`: MessagePack-serialize the tagged
union (`rmp_serde::to_vec`, whose failure would map to
`SerializationError`; it is total on this closed message type), then
compress the result. -/
def serialize (msg : Message) : Except ParseError Wire :=
  .ok (compress (encMessage msg))

/-- Model of `deserialize` in `common.rs`: decompress (failures map to
`DecompressionError`), then MessagePack-deserialize (failures, including
trailing bytes, map to `DeserializationError`). -/
def deserialize (raw : Wire) : Except ParseError Message :=
  match decompress raw with
  | Option.none => .error (.decompressionError "corrupt compressed stream")
  | some toks =>
    match decMessage (toks.length + 1) toks with
    | some (msg, []) => .ok msg
    | _ => .error (.deserializationError "invalid message payload")

/-! ### WebSocket frames (`axum::extract::ws::Message` and the tungstenite
equivalent) -/

/-- Model of an inbound WebSocket frame: the five frame kinds the `From`
impls in `common.rs` distinguish. -/
inductive WsMessage
  | text (s : String)
  | binary (raw : Wire)
  | ping
  | pong
  | close

/-- Model of `impl From<WsMessage*> for WsMessageType`. -/
def wsMessageType : WsMessage → WsMessageType
  | .text _ => .text
  | .binary _ => .binary
  | .ping => .ping
  | .pong => .pong
  | .close => .close

/-- Model of `impl TryFrom<WsMessage*> for Message`: binary frames are
deserialized, every other kind is rejected with `WrongMessageType`. -/
def Message.tryFromWs : WsMessage → Except ParseError Message
  | .binary raw => deserialize raw
  | msg => .error (.wrongMessageType .binary (wsMessageType msg))

/-- Model of `impl TryFrom<Message> for WsMessage*`: serialize and wrap in a
binary frame. -/
def Message.toWs (msg : Message) : Except ParseError WsMessage :=
  match serialize msg with
  | .error e => .error e
  | .ok raw => .ok (.binary raw)

/-! ## Round-trip lemmas for the codec -/

theorem decUnit_enc (u : Unit) (rest : List Tok) :
    decUnit (encUnit u ++ rest) = some (u, rest) := rfl

theorem decBoolF_enc (b : Bool) (rest : List Tok) :
    decBoolF (encBoolF b ++ rest) = some (b, rest) := rfl

theorem decIntF_enc (i : Int) (rest : List Tok) :
    decIntF (encIntF i ++ rest) = some (i, rest) := rfl

theorem decF64F_enc (f : F64) (rest : List Tok) :
    decF64F (encF64F f ++ rest) = some (f, rest) := rfl

theorem decStrF_enc (s : String) (rest : List Tok) :
    decStrF (encStrF s ++ rest) = some (s, rest) := rfl

theorem decComplexF_enc (c : Complex) (rest : List Tok) :
    decComplexF (encComplexF c ++ rest) = some (c, rest) := rfl

theorem decVec3F_enc (v : Vec3) (rest : List Tok) :
    decVec3F (encVec3F v ++ rest) = some (v, rest) := rfl

theorem decVec4F_enc (v : Vec4) (rest : List Tok) :
    decVec4F (encVec4F v ++ rest) = some (v, rest) := rfl

theorem decAffineF_enc (a : Affine) (rest : List Tok) :
    decAffineF (encAffineF a ++ rest) = some (a, rest) := by
  simp [encAffineF, decAffineF, List.append_assoc, decVec4F_enc]

theorem decShape3F_enc (s : Shape3) (rest : List Tok) :
    decShape3F (encShape3F s ++ rest) = some (s, rest) := rfl

theorem decISE_enc (e : InstantSeqEvent) (rest : List Tok) :
    decISE (encISE e ++ rest) = some (e, rest) := by
  cases e <;> rfl

theorem decList_enc {α : Type} (enc : α → List Tok)
    (dec : List Tok → Option (α × List Tok))
    (hdec : ∀ (x : α) (rest : List Tok), dec (enc x ++ rest) = some (x, rest)) :
    ∀ (xs : List α) (fuel : Nat) (rest : List Tok),
      (encList enc xs).length ≤ fuel →
      decList dec fuel (encList enc xs ++ rest) = some (xs, rest) := by
  intro xs
  induction xs with
  | nil => intro fuel rest h; cases fuel <;> simp [encList, decList]
  | cons x xs ih =>
    intro fuel rest h
    match fuel with
    | 0 => simp [encList] at h
    | fuel+1 =>
      have hlen : (enc x).length + (encList enc xs).length + 1 ≤ fuel + 1 := by
        simpa [encList] using h
      simp only [encList, List.cons_append, List.append_assoc, List.append_eq, decList]
      rw [hdec x (encList enc xs ++ rest)]
      dsimp only
      rw [ih fuel rest (by omega)]

theorem decAList_enc {α : Type} (enc : α → List Tok)
    (dec : List Tok → Option (α × List Tok))
    (hdec : ∀ (x : α) (rest : List Tok), dec (enc x ++ rest) = some (x, rest)) :
    ∀ (xs : List (String × α)) (fuel : Nat) (rest : List Tok),
      (encAList enc xs).length ≤ fuel →
      decAList dec fuel (encAList enc xs ++ rest) = some (xs, rest) := by
  intro xs
  induction xs with
  | nil => intro fuel rest h; cases fuel <;> simp [encAList, decAList]
  | cons kv xs ih =>
    intro fuel rest h
    match kv with
    | (k, v) =>
      match fuel with
      | 0 => simp [encAList] at h
      | fuel+1 =>
        have hlen : (enc v).length + (encAList enc xs).length + 2 ≤ fuel + 1 := by
          have := h
          simp [encAList] at this
          omega
        simp only [encAList, List.cons_append, List.append_assoc, List.append_eq, decAList]
        rw [hdec v (encAList enc xs ++ rest)]
        dsimp only
        rw [ih fuel rest (by omega)]

theorem decompress_compress : ∀ (ts : List Tok), decompress (compress ts) = some ts := by
  intro ts
  induction ts with
  | nil => rfl
  | cons t ts ih =>
    match hc : compress ts with
    | [] =>
      rw [hc] at ih
      simp only [decompress] at ih
      simp only [compress, hc, decompress]
      simp [← Option.some_inj.mp ih]
    | (n, u) :: runs =>
      rw [hc] at ih
      match n with
      | 0 => simp [decompress] at ih
      | m+1 =>
        simp only [decompress] at ih
        match hd : decompress runs with
        | Option.none => rw [hd] at ih; simp at ih
        | some ts2 =>
          rw [hd] at ih
          simp only [Option.some_inj] at ih
          by_cases he : t = u
          · subst he
            simp only [compress, hc, if_pos rfl, decompress, hd]
            rw [← ih]
            simp [List.replicate_succ]
          · simp only [compress, hc, if_neg he, decompress, hd]
            rw [← ih]
            simp [List.replicate_succ]

/-! ### Definitional equations for the recursive codecs

The mutual encoders and decoders are compiled structurally, so their
per-constructor equations hold by `rfl`; stating them once keeps the
round-trip proofs cheap. -/

theorem encVolume_mk (shape : Shape3) (affine : Affine) (data : TypedList) :
    encVolume (.mk shape affine data) =
      .tag 0 :: (encShape3F shape ++ encAffineF affine ++ encTypedList data) := rfl

theorem decVolume_step (fuel : Nat) (rest : List Tok) :
    decVolume (fuel+1) (.tag 0 :: rest) =
      match decShape3F rest with
      | Option.none => none
      | some (shape, r1) =>
        match decAffineF r1 with
        | Option.none => none
        | some (affine, r2) =>
          match decTypedList fuel r2 with
          | Option.none => none
          | some (data, r3) => some (.mk shape affine data, r3) := rfl

theorem encPhantomTissue_mk (density db0 : Volume) (t1 t2 t2dash adc : F64) :
    encPhantomTissue (.mk density db0 t1 t2 t2dash adc) =
      .tag 0 :: (encVolume density ++ encVolume db0 ++
        [.f64 t1, .f64 t2, .f64 t2dash, .f64 adc]) := rfl

theorem decPhantomTissue_step (fuel : Nat) (rest : List Tok) :
    decPhantomTissue (fuel+1) (.tag 0 :: rest) =
      match decVolume fuel rest with
      | Option.none => none
      | some (density, r1) =>
        match decVolume fuel r1 with
        | Option.none => none
        | some (db0, r2) =>
          match r2 with
          | .f64 t1 :: .f64 t2 :: .f64 t2dash :: .f64 adc :: r3 =>
            some (.mk density db0 t1 t2 t2dash adc, r3)
          | _ => none := rfl

theorem encSegmentedPhantom_mk (tissues : TissueList) (b1Tx b1Rx : VolumeList) :
    encSegmentedPhantom (.mk tissues b1Tx b1Rx) =
      .tag 0 :: (encTissueList tissues ++ encVolumeList b1Tx ++ encVolumeList b1Rx) := rfl

theorem decSegmentedPhantom_step (fuel : Nat) (rest : List Tok) :
    decSegmentedPhantom (fuel+1) (.tag 0 :: rest) =
      match decTissueList fuel rest with
      | Option.none => none
      | some (tissues, r1) =>
        match decVolumeList fuel r1 with
        | Option.none => none
        | some (b1Tx, r2) =>
          match decVolumeList fuel r2 with
          | Option.none => none
          | some (b1Rx, r3) => some (.mk tissues b1Tx b1Rx, r3) := rfl

theorem encVolumeList_nil : encVolumeList .nil = [.tag 0] := rfl

theorem encVolumeList_cons (h : Volume) (t : VolumeList) :
    encVolumeList (.cons h t) = .tag 1 :: (encVolume h ++ encVolumeList t) := rfl

theorem decVolumeList_nil (fuel : Nat) (rest : List Tok) :
    decVolumeList fuel (.tag 0 :: rest) = some (.nil, rest) := by
  cases fuel <;> rfl

theorem decVolumeList_cons (fuel : Nat) (rest : List Tok) :
    decVolumeList (fuel+1) (.tag 1 :: rest) =
      match decVolume fuel rest with
      | Option.none => none
      | some (h, r1) =>
        match decVolumeList fuel r1 with
        | Option.none => none
        | some (t, r2) => some (.cons h t, r2) := rfl

theorem encTissueList_nil : encTissueList .nil = [.tag 0] := rfl

theorem encTissueList_cons (h : PhantomTissue) (t : TissueList) :
    encTissueList (.cons h t) = .tag 1 :: (encPhantomTissue h ++ encTissueList t) := rfl

theorem decTissueList_nil (fuel : Nat) (rest : List Tok) :
    decTissueList fuel (.tag 0 :: rest) = some (.nil, rest) := by
  cases fuel <;> rfl

theorem decTissueList_cons (fuel : Nat) (rest : List Tok) :
    decTissueList (fuel+1) (.tag 1 :: rest) =
      match decPhantomTissue fuel rest with
      | Option.none => none
      | some (h, r1) =>
        match decTissueList fuel r1 with
        | Option.none => none
        | some (t, r2) => some (.cons h t, r2) := rfl

theorem encSegList_nil : encSegList .nil = [.tag 0] := rfl

theorem encSegList_cons (h : SegmentedPhantom) (t : SegList) :
    encSegList (.cons h t) = .tag 1 :: (encSegmentedPhantom h ++ encSegList t) := rfl

theorem decSegList_nil (fuel : Nat) (rest : List Tok) :
    decSegList fuel (.tag 0 :: rest) = some (.nil, rest) := by
  cases fuel <;> rfl

theorem decSegList_cons (fuel : Nat) (rest : List Tok) :
    decSegList (fuel+1) (.tag 1 :: rest) =
      match decSegmentedPhantom fuel rest with
      | Option.none => none
      | some (h, r1) =>
        match decSegList fuel r1 with
        | Option.none => none
        | some (t, r2) => some (.cons h t, r2) := rfl

theorem encVolumeAList_nil : encVolumeAList .nil = [.tag 0] := rfl

theorem encVolumeAList_cons (k : String) (v : Volume) (t : VolumeAList) :
    encVolumeAList (.cons k v t) = .tag 1 :: .str k :: (encVolume v ++ encVolumeAList t) := rfl

theorem decVolumeAList_nil (fuel : Nat) (rest : List Tok) :
    decVolumeAList fuel (.tag 0 :: rest) = some (.nil, rest) := by
  cases fuel <;> rfl

theorem decVolumeAList_cons (fuel : Nat) (k : String) (rest : List Tok) :
    decVolumeAList (fuel+1) (.tag 1 :: .str k :: rest) =
      match decVolume fuel rest with
      | Option.none => none
      | some (v, r1) =>
        match decVolumeAList fuel r1 with
        | Option.none => none
        | some (t, r2) => some (.cons k v t, r2) := rfl

theorem encTissueAList_nil : encTissueAList .nil = [.tag 0] := rfl

theorem encTissueAList_cons (k : String) (v : PhantomTissue) (t : TissueAList) :
    encTissueAList (.cons k v t) = .tag 1 :: .str k :: (encPhantomTissue v ++ encTissueAList t) := rfl

theorem decTissueAList_nil (fuel : Nat) (rest : List Tok) :
    decTissueAList fuel (.tag 0 :: rest) = some (.nil, rest) := by
  cases fuel <;> rfl

theorem decTissueAList_cons (fuel : Nat) (k : String) (rest : List Tok) :
    decTissueAList (fuel+1) (.tag 1 :: .str k :: rest) =
      match decPhantomTissue fuel rest with
      | Option.none => none
      | some (v, r1) =>
        match decTissueAList fuel r1 with
        | Option.none => none
        | some (t, r2) => some (.cons k v t, r2) := rfl

theorem encSegAList_nil : encSegAList .nil = [.tag 0] := rfl

theorem encSegAList_cons (k : String) (v : SegmentedPhantom) (t : SegAList) :
    encSegAList (.cons k v t) = .tag 1 :: .str k :: (encSegmentedPhantom v ++ encSegAList t) := rfl

theorem decSegAList_nil (fuel : Nat) (rest : List Tok) :
    decSegAList fuel (.tag 0 :: rest) = some (.nil, rest) := by
  cases fuel <;> rfl

theorem decSegAList_cons (fuel : Nat) (k : String) (rest : List Tok) :
    decSegAList (fuel+1) (.tag 1 :: .str k :: rest) =
      match decSegmentedPhantom fuel rest with
      | Option.none => none
      | some (v, r1) =>
        match decSegAList fuel r1 with
        | Option.none => none
        | some (t, r2) => some (.cons k v t, r2) := rfl

theorem encTypedList_none (items : List Unit) :
    encTypedList (.none items) = .tag 0 :: encList encUnit items := rfl

theorem decTypedList_none (fuel : Nat) (rest : List Tok) :
    decTypedList (fuel+1) (.tag 0 :: rest) =
      match decList decUnit fuel rest with
      | Option.none => none
      | some (xs, r) => some (.none xs, r) := rfl

theorem encTypedList_bool (items : List Bool) :
    encTypedList (.bool items) = .tag 1 :: encList encBoolF items := rfl

theorem decTypedList_bool (fuel : Nat) (rest : List Tok) :
    decTypedList (fuel+1) (.tag 1 :: rest) =
      match decList decBoolF fuel rest with
      | Option.none => none
      | some (xs, r) => some (.bool xs, r) := rfl

theorem encTypedList_int (items : List Int) :
    encTypedList (.int items) = .tag 2 :: encList encIntF items := rfl

theorem decTypedList_int (fuel : Nat) (rest : List Tok) :
    decTypedList (fuel+1) (.tag 2 :: rest) =
      match decList decIntF fuel rest with
      | Option.none => none
      | some (xs, r) => some (.int xs, r) := rfl

theorem encTypedList_float (items : List F64) :
    encTypedList (.float items) = .tag 3 :: encList encF64F items := rfl

theorem decTypedList_float (fuel : Nat) (rest : List Tok) :
    decTypedList (fuel+1) (.tag 3 :: rest) =
      match decList decF64F fuel rest with
      | Option.none => none
      | some (xs, r) => some (.float xs, r) := rfl

theorem encTypedList_complex (items : List Complex) :
    encTypedList (.complex items) = .tag 4 :: encList encComplexF items := rfl

theorem decTypedList_complex (fuel : Nat) (rest : List Tok) :
    decTypedList (fuel+1) (.tag 4 :: rest) =
      match decList decComplexF fuel rest with
      | Option.none => none
      | some (xs, r) => some (.complex xs, r) := rfl

theorem encTypedList_vec3 (items : List Vec3) :
    encTypedList (.vec3 items) = .tag 5 :: encList encVec3F items := rfl

theorem decTypedList_vec3 (fuel : Nat) (rest : List Tok) :
    decTypedList (fuel+1) (.tag 5 :: rest) =
      match decList decVec3F fuel rest with
      | Option.none => none
      | some (xs, r) => some (.vec3 xs, r) := rfl

theorem encTypedList_vec4 (items : List Vec4) :
    encTypedList (.vec4 items) = .tag 6 :: encList encVec4F items := rfl

theorem decTypedList_vec4 (fuel : Nat) (rest : List Tok) :
    decTypedList (fuel+1) (.tag 6 :: rest) =
      match decList decVec4F fuel rest with
      | Option.none => none
      | some (xs, r) => some (.vec4 xs, r) := rfl

theorem encTypedList_str (items : List String) :
    encTypedList (.str items) = .tag 7 :: encList encStrF items := rfl

theorem decTypedList_str (fuel : Nat) (rest : List Tok) :
    decTypedList (fuel+1) (.tag 7 :: rest) =
      match decList decStrF fuel rest with
      | Option.none => none
      | some (xs, r) => some (.str xs, r) := rfl

theorem encTypedList_instantSeqEvent (items : List InstantSeqEvent) :
    encTypedList (.instantSeqEvent items) = .tag 8 :: encList encISE items := rfl

theorem decTypedList_instantSeqEvent (fuel : Nat) (rest : List Tok) :
    decTypedList (fuel+1) (.tag 8 :: rest) =
      match decList decISE fuel rest with
      | Option.none => none
      | some (xs, r) => some (.instantSeqEvent xs, r) := rfl

theorem encTypedList_volume (items : VolumeList) :
    encTypedList (.volume items) = .tag 9 :: encVolumeList items := rfl

theorem decTypedList_volume (fuel : Nat) (rest : List Tok) :
    decTypedList (fuel+1) (.tag 9 :: rest) =
      match decVolumeList fuel rest with
      | Option.none => none
      | some (xs, r) => some (.volume xs, r) := rfl

theorem encTypedList_segmentedPhantom (items : SegList) :
    encTypedList (.segmentedPhantom items) = .tag 10 :: encSegList items := rfl

theorem decTypedList_segmentedPhantom (fuel : Nat) (rest : List Tok) :
    decTypedList (fuel+1) (.tag 10 :: rest) =
      match decSegList fuel rest with
      | Option.none => none
      | some (xs, r) => some (.segmentedPhantom xs, r) := rfl

theorem encTypedList_phantomTissue (items : TissueList) :
    encTypedList (.phantomTissue items) = .tag 11 :: encTissueList items := rfl

theorem decTypedList_phantomTissue (fuel : Nat) (rest : List Tok) :
    decTypedList (fuel+1) (.tag 11 :: rest) =
      match decTissueList fuel rest with
      | Option.none => none
      | some (xs, r) => some (.phantomTissue xs, r) := rfl

theorem encTypedDict_none (items : List (String × Unit)) :
    encTypedDict (.none items) = .tag 0 :: encAList encUnit items := rfl

theorem decTypedDict_none (fuel : Nat) (rest : List Tok) :
    decTypedDict (fuel+1) (.tag 0 :: rest) =
      match decAList decUnit fuel rest with
      | Option.none => none
      | some (xs, r) => some (.none xs, r) := rfl

theorem encTypedDict_bool (items : List (String × Bool)) :
    encTypedDict (.bool items) = .tag 1 :: encAList encBoolF items := rfl

theorem decTypedDict_bool (fuel : Nat) (rest : List Tok) :
    decTypedDict (fuel+1) (.tag 1 :: rest) =
      match decAList decBoolF fuel rest with
      | Option.none => none
      | some (xs, r) => some (.bool xs, r) := rfl

theorem encTypedDict_int (items : List (String × Int)) :
    encTypedDict (.int items) = .tag 2 :: encAList encIntF items := rfl

theorem decTypedDict_int (fuel : Nat) (rest : List Tok) :
    decTypedDict (fuel+1) (.tag 2 :: rest) =
      match decAList decIntF fuel rest with
      | Option.none => none
      | some (xs, r) => some (.int xs, r) := rfl

theorem encTypedDict_float (items : List (String × F64)) :
    encTypedDict (.float items) = .tag 3 :: encAList encF64F items := rfl

theorem decTypedDict_float (fuel : Nat) (rest : List Tok) :
    decTypedDict (fuel+1) (.tag 3 :: rest) =
      match decAList decF64F fuel rest with
      | Option.none => none
      | some (xs, r) => some (.float xs, r) := rfl

theorem encTypedDict_complex (items : List (String × Complex)) :
    encTypedDict (.complex items) = .tag 4 :: encAList encComplexF items := rfl

theorem decTypedDict_complex (fuel : Nat) (rest : List Tok) :
    decTypedDict (fuel+1) (.tag 4 :: rest) =
      match decAList decComplexF fuel rest with
      | Option.none => none
      | some (xs, r) => some (.complex xs, r) := rfl

theorem encTypedDict_vec3 (items : List (String × Vec3)) :
    encTypedDict (.vec3 items) = .tag 5 :: encAList encVec3F items := rfl

theorem decTypedDict_vec3 (fuel : Nat) (rest : List Tok) :
    decTypedDict (fuel+1) (.tag 5 :: rest) =
      match decAList decVec3F fuel rest with
      | Option.none => none
      | some (xs, r) => some (.vec3 xs, r) := rfl

theorem encTypedDict_vec4 (items : List (String × Vec4)) :
    encTypedDict (.vec4 items) = .tag 6 :: encAList encVec4F items := rfl

theorem decTypedDict_vec4 (fuel : Nat) (rest : List Tok) :
    decTypedDict (fuel+1) (.tag 6 :: rest) =
      match decAList decVec4F fuel rest with
      | Option.none => none
      | some (xs, r) => some (.vec4 xs, r) := rfl

theorem encTypedDict_str (items : List (String × String)) :
    encTypedDict (.str items) = .tag 7 :: encAList encStrF items := rfl

theorem decTypedDict_str (fuel : Nat) (rest : List Tok) :
    decTypedDict (fuel+1) (.tag 7 :: rest) =
      match decAList decStrF fuel rest with
      | Option.none => none
      | some (xs, r) => some (.str xs, r) := rfl

theorem encTypedDict_instantSeqEvent (items : List (String × InstantSeqEvent)) :
    encTypedDict (.instantSeqEvent items) = .tag 8 :: encAList encISE items := rfl

theorem decTypedDict_instantSeqEvent (fuel : Nat) (rest : List Tok) :
    decTypedDict (fuel+1) (.tag 8 :: rest) =
      match decAList decISE fuel rest with
      | Option.none => none
      | some (xs, r) => some (.instantSeqEvent xs, r) := rfl

theorem encTypedDict_volume (items : VolumeAList) :
    encTypedDict (.volume items) = .tag 9 :: encVolumeAList items := rfl

theorem decTypedDict_volume (fuel : Nat) (rest : List Tok) :
    decTypedDict (fuel+1) (.tag 9 :: rest) =
      match decVolumeAList fuel rest with
      | Option.none => none
      | some (xs, r) => some (.volume xs, r) := rfl

theorem encTypedDict_segmentedPhantom (items : SegAList) :
    encTypedDict (.segmentedPhantom items) = .tag 10 :: encSegAList items := rfl

theorem decTypedDict_segmentedPhantom (fuel : Nat) (rest : List Tok) :
    decTypedDict (fuel+1) (.tag 10 :: rest) =
      match decSegAList fuel rest with
      | Option.none => none
      | some (xs, r) => some (.segmentedPhantom xs, r) := rfl

theorem encTypedDict_phantomTissue (items : TissueAList) :
    encTypedDict (.phantomTissue items) = .tag 11 :: encTissueAList items := rfl

theorem decTypedDict_phantomTissue (fuel : Nat) (rest : List Tok) :
    decTypedDict (fuel+1) (.tag 11 :: rest) =
      match decTissueAList fuel rest with
      | Option.none => none
      | some (xs, r) => some (.phantomTissue xs, r) := rfl

mutual

theorem decVolume_enc (v : Volume) : ∀ (fuel : Nat) (rest : List Tok),
    (encVolume v).length ≤ fuel →
    decVolume fuel (encVolume v ++ rest) = some (v, rest) := by
  match v with
  | .mk shape affine data =>
    intro fuel rest h
    rw [encVolume_mk] at h ⊢
    match fuel with
    | 0 => simp at h
    | fuel+1 =>
      have hb : (encTypedList data).length ≤ fuel := by simp at h; omega
      simp only [List.cons_append, List.append_assoc]
      rw [decVolume_step, decShape3F_enc]
      dsimp only
      rw [decAffineF_enc]
      dsimp only
      rw [decTypedList_enc data fuel rest hb]

theorem decPhantomTissue_enc (t : PhantomTissue) : ∀ (fuel : Nat) (rest : List Tok),
    (encPhantomTissue t).length ≤ fuel →
    decPhantomTissue fuel (encPhantomTissue t ++ rest) = some (t, rest) := by
  match t with
  | .mk density db0 t1 t2 t2dash adc =>
    intro fuel rest h
    rw [encPhantomTissue_mk] at h ⊢
    match fuel with
    | 0 => simp at h
    | fuel+1 =>
      have hb : (encVolume density).length ≤ fuel ∧ (encVolume db0).length ≤ fuel := by
        simp at h; omega
      simp only [List.cons_append, List.append_assoc]
      rw [decPhantomTissue_step, decVolume_enc density fuel _ hb.1]
      dsimp only
      rw [decVolume_enc db0 fuel _ hb.2]
      simp

theorem decSegmentedPhantom_enc (p : SegmentedPhantom) : ∀ (fuel : Nat) (rest : List Tok),
    (encSegmentedPhantom p).length ≤ fuel →
    decSegmentedPhantom fuel (encSegmentedPhantom p ++ rest) = some (p, rest) := by
  match p with
  | .mk tissues b1Tx b1Rx =>
    intro fuel rest h
    rw [encSegmentedPhantom_mk] at h ⊢
    match fuel with
    | 0 => simp at h
    | fuel+1 =>
      have hb : (encTissueList tissues).length ≤ fuel ∧
          (encVolumeList b1Tx).length ≤ fuel ∧ (encVolumeList b1Rx).length ≤ fuel := by
        simp at h; omega
      simp only [List.cons_append, List.append_assoc]
      rw [decSegmentedPhantom_step, decTissueList_enc tissues fuel _ hb.1]
      dsimp only
      rw [decVolumeList_enc b1Tx fuel _ hb.2.1]
      dsimp only
      rw [decVolumeList_enc b1Rx fuel rest hb.2.2]

theorem decVolumeList_enc (l : VolumeList) : ∀ (fuel : Nat) (rest : List Tok),
    (encVolumeList l).length ≤ fuel →
    decVolumeList fuel (encVolumeList l ++ rest) = some (l, rest) := by
  match l with
  | .nil => intro fuel rest h; rw [encVolumeList_nil]; exact decVolumeList_nil fuel rest
  | .cons hd tl =>
    intro fuel rest h
    rw [encVolumeList_cons] at h ⊢
    match fuel with
    | 0 => simp at h
    | fuel+1 =>
      have hb : (encVolume hd).length ≤ fuel ∧ (encVolumeList tl).length ≤ fuel := by
        simp at h; omega
      simp only [List.cons_append, List.append_assoc]
      rw [decVolumeList_cons, decVolume_enc hd fuel _ hb.1]
      dsimp only
      rw [decVolumeList_enc tl fuel rest hb.2]

theorem decTissueList_enc (l : TissueList) : ∀ (fuel : Nat) (rest : List Tok),
    (encTissueList l).length ≤ fuel →
    decTissueList fuel (encTissueList l ++ rest) = some (l, rest) := by
  match l with
  | .nil => intro fuel rest h; rw [encTissueList_nil]; exact decTissueList_nil fuel rest
  | .cons hd tl =>
    intro fuel rest h
    rw [encTissueList_cons] at h ⊢
    match fuel with
    | 0 => simp at h
    | fuel+1 =>
      have hb : (encPhantomTissue hd).length ≤ fuel ∧ (encTissueList tl).length ≤ fuel := by
        simp at h; omega
      simp only [List.cons_append, List.append_assoc]
      rw [decTissueList_cons, decPhantomTissue_enc hd fuel _ hb.1]
      dsimp only
      rw [decTissueList_enc tl fuel rest hb.2]

theorem decSegList_enc (l : SegList) : ∀ (fuel : Nat) (rest : List Tok),
    (encSegList l).length ≤ fuel →
    decSegList fuel (encSegList l ++ rest) = some (l, rest) := by
  match l with
  | .nil => intro fuel rest h; rw [encSegList_nil]; exact decSegList_nil fuel rest
  | .cons hd tl =>
    intro fuel rest h
    rw [encSegList_cons] at h ⊢
    match fuel with
    | 0 => simp at h
    | fuel+1 =>
      have hb : (encSegmentedPhantom hd).length ≤ fuel ∧ (encSegList tl).length ≤ fuel := by
        simp at h; omega
      simp only [List.cons_append, List.append_assoc]
      rw [decSegList_cons, decSegmentedPhantom_enc hd fuel _ hb.1]
      dsimp only
      rw [decSegList_enc tl fuel rest hb.2]

theorem decVolumeAList_enc (l : VolumeAList) : ∀ (fuel : Nat) (rest : List Tok),
    (encVolumeAList l).length ≤ fuel →
    decVolumeAList fuel (encVolumeAList l ++ rest) = some (l, rest) := by
  match l with
  | .nil => intro fuel rest h; rw [encVolumeAList_nil]; exact decVolumeAList_nil fuel rest
  | .cons k v tl =>
    intro fuel rest h
    rw [encVolumeAList_cons] at h ⊢
    match fuel with
    | 0 => simp at h
    | fuel+1 =>
      have hb : (encVolume v).length ≤ fuel ∧ (encVolumeAList tl).length ≤ fuel := by
        simp at h; omega
      simp only [List.cons_append, List.append_assoc]
      rw [decVolumeAList_cons, decVolume_enc v fuel _ hb.1]
      dsimp only
      rw [decVolumeAList_enc tl fuel rest hb.2]

theorem decTissueAList_enc (l : TissueAList) : ∀ (fuel : Nat) (rest : List Tok),
    (encTissueAList l).length ≤ fuel →
    decTissueAList fuel (encTissueAList l ++ rest) = some (l, rest) := by
  match l with
  | .nil => intro fuel rest h; rw [encTissueAList_nil]; exact decTissueAList_nil fuel rest
  | .cons k v tl =>
    intro fuel rest h
    rw [encTissueAList_cons] at h ⊢
    match fuel with
    | 0 => simp at h
    | fuel+1 =>
      have hb : (encPhantomTissue v).length ≤ fuel ∧ (encTissueAList tl).length ≤ fuel := by
        simp at h; omega
      simp only [List.cons_append, List.append_assoc]
      rw [decTissueAList_cons, decPhantomTissue_enc v fuel _ hb.1]
      dsimp only
      rw [decTissueAList_enc tl fuel rest hb.2]

theorem decSegAList_enc (l : SegAList) : ∀ (fuel : Nat) (rest : List Tok),
    (encSegAList l).length ≤ fuel →
    decSegAList fuel (encSegAList l ++ rest) = some (l, rest) := by
  match l with
  | .nil => intro fuel rest h; rw [encSegAList_nil]; exact decSegAList_nil fuel rest
  | .cons k v tl =>
    intro fuel rest h
    rw [encSegAList_cons] at h ⊢
    match fuel with
    | 0 => simp at h
    | fuel+1 =>
      have hb : (encSegmentedPhantom v).length ≤ fuel ∧ (encSegAList tl).length ≤ fuel := by
        simp at h; omega
      simp only [List.cons_append, List.append_assoc]
      rw [decSegAList_cons, decSegmentedPhantom_enc v fuel _ hb.1]
      dsimp only
      rw [decSegAList_enc tl fuel rest hb.2]

theorem decTypedList_enc (t : TypedList) : ∀ (fuel : Nat) (rest : List Tok),
    (encTypedList t).length ≤ fuel →
    decTypedList fuel (encTypedList t ++ rest) = some (t, rest) := by
  match t with
  | .none items =>
    intro fuel rest h
    rw [encTypedList_none] at h ⊢
    match fuel with
    | 0 => simp at h
    | fuel+1 =>
      simp only [List.cons_append]
      rw [decTypedList_none,
        decList_enc encUnit decUnit decUnit_enc items fuel rest (by simp at h; omega)]
  | .bool items =>
    intro fuel rest h
    rw [encTypedList_bool] at h ⊢
    match fuel with
    | 0 => simp at h
    | fuel+1 =>
      simp only [List.cons_append]
      rw [decTypedList_bool,
        decList_enc encBoolF decBoolF decBoolF_enc items fuel rest (by simp at h; omega)]
  | .int items =>
    intro fuel rest h
    rw [encTypedList_int] at h ⊢
    match fuel with
    | 0 => simp at h
    | fuel+1 =>
      simp only [List.cons_append]
      rw [decTypedList_int,
        decList_enc encIntF decIntF decIntF_enc items fuel rest (by simp at h; omega)]
  | .float items =>
    intro fuel rest h
    rw [encTypedList_float] at h ⊢
    match fuel with
    | 0 => simp at h
    | fuel+1 =>
      simp only [List.cons_append]
      rw [decTypedList_float,
        decList_enc encF64F decF64F decF64F_enc items fuel rest (by simp at h; omega)]
  | .complex items =>
    intro fuel rest h
    rw [encTypedList_complex] at h ⊢
    match fuel with
    | 0 => simp at h
    | fuel+1 =>
      simp only [List.cons_append]
      rw [decTypedList_complex,
        decList_enc encComplexF decComplexF decComplexF_enc items fuel rest (by simp at h; omega)]
  | .vec3 items =>
    intro fuel rest h
    rw [encTypedList_vec3] at h ⊢
    match fuel with
    | 0 => simp at h
    | fuel+1 =>
      simp only [List.cons_append]
      rw [decTypedList_vec3,
        decList_enc encVec3F decVec3F decVec3F_enc items fuel rest (by simp at h; omega)]
  | .vec4 items =>
    intro fuel rest h
    rw [encTypedList_vec4] at h ⊢
    match fuel with
    | 0 => simp at h
    | fuel+1 =>
      simp only [List.cons_append]
      rw [decTypedList_vec4,
        decList_enc encVec4F decVec4F decVec4F_enc items fuel rest (by simp at h; omega)]
  | .str items =>
    intro fuel rest h
    rw [encTypedList_str] at h ⊢
    match fuel with
    | 0 => simp at h
    | fuel+1 =>
      simp only [List.cons_append]
      rw [decTypedList_str,
        decList_enc encStrF decStrF decStrF_enc items fuel rest (by simp at h; omega)]
  | .instantSeqEvent items =>
    intro fuel rest h
    rw [encTypedList_instantSeqEvent] at h ⊢
    match fuel with
    | 0 => simp at h
    | fuel+1 =>
      simp only [List.cons_append]
      rw [decTypedList_instantSeqEvent,
        decList_enc encISE decISE decISE_enc items fuel rest (by simp at h; omega)]
  | .volume items =>
    intro fuel rest h
    rw [encTypedList_volume] at h ⊢
    match fuel with
    | 0 => simp at h
    | fuel+1 =>
      simp only [List.cons_append]
      rw [decTypedList_volume, decVolumeList_enc items fuel rest (by simp at h; omega)]
  | .segmentedPhantom items =>
    intro fuel rest h
    rw [encTypedList_segmentedPhantom] at h ⊢
    match fuel with
    | 0 => simp at h
    | fuel+1 =>
      simp only [List.cons_append]
      rw [decTypedList_segmentedPhantom, decSegList_enc items fuel rest (by simp at h; omega)]
  | .phantomTissue items =>
    intro fuel rest h
    rw [encTypedList_phantomTissue] at h ⊢
    match fuel with
    | 0 => simp at h
    | fuel+1 =>
      simp only [List.cons_append]
      rw [decTypedList_phantomTissue, decTissueList_enc items fuel rest (by simp at h; omega)]

theorem decTypedDict_enc (t : TypedDict) : ∀ (fuel : Nat) (rest : List Tok),
    (encTypedDict t).length ≤ fuel →
    decTypedDict fuel (encTypedDict t ++ rest) = some (t, rest) := by
  match t with
  | .none items =>
    intro fuel rest h
    rw [encTypedDict_none] at h ⊢
    match fuel with
    | 0 => simp at h
    | fuel+1 =>
      simp only [List.cons_append]
      rw [decTypedDict_none,
        decAList_enc encUnit decUnit decUnit_enc items fuel rest (by simp at h; omega)]
  | .bool items =>
    intro fuel rest h
    rw [encTypedDict_bool] at h ⊢
    match fuel with
    | 0 => simp at h
    | fuel+1 =>
      simp only [List.cons_append]
      rw [decTypedDict_bool,
        decAList_enc encBoolF decBoolF decBoolF_enc items fuel rest (by simp at h; omega)]
  | .int items =>
    intro fuel rest h
    rw [encTypedDict_int] at h ⊢
    match fuel with
    | 0 => simp at h
    | fuel+1 =>
      simp only [List.cons_append]
      rw [decTypedDict_int,
        decAList_enc encIntF decIntF decIntF_enc items fuel rest (by simp at h; omega)]
  | .float items =>
    intro fuel rest h
    rw [encTypedDict_float] at h ⊢
    match fuel with
    | 0 => simp at h
    | fuel+1 =>
      simp only [List.cons_append]
      rw [decTypedDict_float,
        decAList_enc encF64F decF64F decF64F_enc items fuel rest (by simp at h; omega)]
  | .complex items =>
    intro fuel rest h
    rw [encTypedDict_complex] at h ⊢
    match fuel with
    | 0 => simp at h
    | fuel+1 =>
      simp only [List.cons_append]
      rw [decTypedDict_complex,
        decAList_enc encComplexF decComplexF decComplexF_enc items fuel rest (by simp at h; omega)]
  | .vec3 items =>
    intro fuel rest h
    rw [encTypedDict_vec3] at h ⊢
    match fuel with
    | 0 => simp at h
    | fuel+1 =>
      simp only [List.cons_append]
      rw [decTypedDict_vec3,
        decAList_enc encVec3F decVec3F decVec3F_enc items fuel rest (by simp at h; omega)]
  | .vec4 items =>
    intro fuel rest h
    rw [encTypedDict_vec4] at h ⊢
    match fuel with
    | 0 => simp at h
    | fuel+1 =>
      simp only [List.cons_append]
      rw [decTypedDict_vec4,
        decAList_enc encVec4F decVec4F decVec4F_enc items fuel rest (by simp at h; omega)]
  | .str items =>
    intro fuel rest h
    rw [encTypedDict_str] at h ⊢
    match fuel with
    | 0 => simp at h
    | fuel+1 =>
      simp only [List.cons_append]
      rw [decTypedDict_str,
        decAList_enc encStrF decStrF decStrF_enc items fuel rest (by simp at h; omega)]
  | .instantSeqEvent items =>
    intro fuel rest h
    rw [encTypedDict_instantSeqEvent] at h ⊢
    match fuel with
    | 0 => simp at h
    | fuel+1 =>
      simp only [List.cons_append]
      rw [decTypedDict_instantSeqEvent,
        decAList_enc encISE decISE decISE_enc items fuel rest (by simp at h; omega)]
  | .volume items =>
    intro fuel rest h
    rw [encTypedDict_volume] at h ⊢
    match fuel with
    | 0 => simp at h
    | fuel+1 =>
      simp only [List.cons_append]
      rw [decTypedDict_volume, decVolumeAList_enc items fuel rest (by simp at h; omega)]
  | .segmentedPhantom items =>
    intro fuel rest h
    rw [encTypedDict_segmentedPhantom] at h ⊢
    match fuel with
    | 0 => simp at h
    | fuel+1 =>
      simp only [List.cons_append]
      rw [decTypedDict_segmentedPhantom, decSegAList_enc items fuel rest (by simp at h; omega)]
  | .phantomTissue items =>
    intro fuel rest h
    rw [encTypedDict_phantomTissue] at h ⊢
    match fuel with
    | 0 => simp at h
    | fuel+1 =>
      simp only [List.cons_append]
      rw [decTypedDict_phantomTissue, decTissueAList_enc items fuel rest (by simp at h; omega)]

end

/-! ### Definitional equations and round trip for the `Value` codec -/

theorem encValue_none : encValue .none = [.tag 0] := rfl

theorem encValue_bool (b : Bool) : encValue (.bool b) = [.tag 1, .bool b] := rfl

theorem encValue_int (i : Int) : encValue (.int i) = [.tag 2, .int i] := rfl

theorem encValue_float (f : F64) : encValue (.float f) = [.tag 3, .f64 f] := rfl

theorem encValue_complex (c : Complex) : encValue (.complex c) = .tag 4 :: encComplexF c := rfl

theorem encValue_vec3 (v : Vec3) : encValue (.vec3 v) = .tag 5 :: encVec3F v := rfl

theorem encValue_vec4 (v : Vec4) : encValue (.vec4 v) = .tag 6 :: encVec4F v := rfl

theorem encValue_str (s : String) : encValue (.str s) = [.tag 7, .str s] := rfl

theorem encValue_ise (e : InstantSeqEvent) :
    encValue (.instantSeqEvent e) = .tag 8 :: encISE e := rfl

theorem encValue_volume (v : Volume) : encValue (.volume v) = .tag 9 :: encVolume v := rfl

theorem encValue_seg (p : SegmentedPhantom) :
    encValue (.segmentedPhantom p) = .tag 10 :: encSegmentedPhantom p := rfl

theorem encValue_tissue (t : PhantomTissue) :
    encValue (.phantomTissue t) = .tag 11 :: encPhantomTissue t := rfl

theorem encValue_dict (entries : ValueEntries) :
    encValue (.dict entries) = .tag 12 :: encValueEntries entries := rfl

theorem encValue_list (items : ValueList) :
    encValue (.list items) = .tag 13 :: encValueList items := rfl

theorem encValue_typedDict (d : TypedDict) :
    encValue (.typedDict d) = .tag 14 :: encTypedDict d := rfl

theorem encValue_typedList (l : TypedList) :
    encValue (.typedList l) = .tag 15 :: encTypedList l := rfl

theorem encValueList_nil : encValueList .nil = [.tag 0] := rfl

theorem encValueList_cons (h : Value) (t : ValueList) :
    encValueList (.cons h t) = .tag 1 :: (encValue h ++ encValueList t) := rfl

theorem encValueEntries_nil : encValueEntries .nil = [.tag 0] := rfl

theorem encValueEntries_cons (k : String) (v : Value) (t : ValueEntries) :
    encValueEntries (.cons k v t) = .tag 1 :: .str k :: (encValue v ++ encValueEntries t) := rfl

theorem decValue_tag0 (fuel : Nat) (rest : List Tok) :
    decValue fuel (.tag 0 :: rest) = some (.none, rest) := by cases fuel <;> rfl

theorem decValue_tag1 (fuel : Nat) (b : Bool) (rest : List Tok) :
    decValue fuel (.tag 1 :: .bool b :: rest) = some (.bool b, rest) := by cases fuel <;> rfl

theorem decValue_tag2 (fuel : Nat) (i : Int) (rest : List Tok) :
    decValue fuel (.tag 2 :: .int i :: rest) = some (.int i, rest) := by cases fuel <;> rfl

theorem decValue_tag3 (fuel : Nat) (f : F64) (rest : List Tok) :
    decValue fuel (.tag 3 :: .f64 f :: rest) = some (.float f, rest) := by cases fuel <;> rfl

theorem decValue_tag4 (fuel : Nat) (rest : List Tok) :
    decValue fuel (.tag 4 :: rest) =
      match decComplexF rest with
      | Option.none => none
      | some (c, r) => some (.complex c, r) := by cases fuel <;> rfl

theorem decValue_tag5 (fuel : Nat) (rest : List Tok) :
    decValue fuel (.tag 5 :: rest) =
      match decVec3F rest with
      | Option.none => none
      | some (v, r) => some (.vec3 v, r) := by cases fuel <;> rfl

theorem decValue_tag6 (fuel : Nat) (rest : List Tok) :
    decValue fuel (.tag 6 :: rest) =
      match decVec4F rest with
      | Option.none => none
      | some (v, r) => some (.vec4 v, r) := by cases fuel <;> rfl

theorem decValue_tag7 (fuel : Nat) (s : String) (rest : List Tok) :
    decValue fuel (.tag 7 :: .str s :: rest) = some (.str s, rest) := by cases fuel <;> rfl

theorem decValue_tag8 (fuel : Nat) (rest : List Tok) :
    decValue fuel (.tag 8 :: rest) =
      match decISE rest with
      | Option.none => none
      | some (e, r) => some (.instantSeqEvent e, r) := by cases fuel <;> rfl

theorem decValue_tag9 (fuel : Nat) (rest : List Tok) :
    decValue (fuel+1) (.tag 9 :: rest) =
      match decVolume fuel rest with
      | Option.none => none
      | some (v, r) => some (.volume v, r) := rfl

theorem decValue_tag10 (fuel : Nat) (rest : List Tok) :
    decValue (fuel+1) (.tag 10 :: rest) =
      match decSegmentedPhantom fuel rest with
      | Option.none => none
      | some (p, r) => some (.segmentedPhantom p, r) := rfl

theorem decValue_tag11 (fuel : Nat) (rest : List Tok) :
    decValue (fuel+1) (.tag 11 :: rest) =
      match decPhantomTissue fuel rest with
      | Option.none => none
      | some (t, r) => some (.phantomTissue t, r) := rfl

theorem decValue_tag12 (fuel : Nat) (rest : List Tok) :
    decValue (fuel+1) (.tag 12 :: rest) =
      match decValueEntries fuel rest with
      | Option.none => none
      | some (entries, r) => some (.dict entries, r) := rfl

theorem decValue_tag13 (fuel : Nat) (rest : List Tok) :
    decValue (fuel+1) (.tag 13 :: rest) =
      match decValueList fuel rest with
      | Option.none => none
      | some (items, r) => some (.list items, r) := rfl

theorem decValue_tag14 (fuel : Nat) (rest : List Tok) :
    decValue (fuel+1) (.tag 14 :: rest) =
      match decTypedDict fuel rest with
      | Option.none => none
      | some (d, r) => some (.typedDict d, r) := rfl

theorem decValue_tag15 (fuel : Nat) (rest : List Tok) :
    decValue (fuel+1) (.tag 15 :: rest) =
      match decTypedList fuel rest with
      | Option.none => none
      | some (l, r) => some (.typedList l, r) := rfl

theorem decValueList_nilStep (fuel : Nat) (rest : List Tok) :
    decValueList fuel (.tag 0 :: rest) = some (.nil, rest) := by cases fuel <;> rfl

theorem decValueList_consStep (fuel : Nat) (rest : List Tok) :
    decValueList (fuel+1) (.tag 1 :: rest) =
      match decValue fuel rest with
      | Option.none => none
      | some (h, r1) =>
        match decValueList fuel r1 with
        | Option.none => none
        | some (t, r2) => some (.cons h t, r2) := rfl

theorem decValueEntries_nilStep (fuel : Nat) (rest : List Tok) :
    decValueEntries fuel (.tag 0 :: rest) = some (.nil, rest) := by cases fuel <;> rfl

theorem decValueEntries_consStep (fuel : Nat) (k : String) (rest : List Tok) :
    decValueEntries (fuel+1) (.tag 1 :: .str k :: rest) =
      match decValue fuel rest with
      | Option.none => none
      | some (v, r1) =>
        match decValueEntries fuel r1 with
        | Option.none => none
        | some (t, r2) => some (.cons k v t, r2) := rfl

mutual

theorem decValue_enc (v : Value) : ∀ (fuel : Nat) (rest : List Tok),
    (encValue v).length ≤ fuel →
    decValue fuel (encValue v ++ rest) = some (v, rest) := by
  match v with
  | .none => intro fuel rest h; rw [encValue_none]; exact decValue_tag0 fuel rest
  | .bool b => intro fuel rest h; rw [encValue_bool]; exact decValue_tag1 fuel b rest
  | .int i => intro fuel rest h; rw [encValue_int]; exact decValue_tag2 fuel i rest
  | .float f => intro fuel rest h; rw [encValue_float]; exact decValue_tag3 fuel f rest
  | .complex c =>
    intro fuel rest h
    rw [encValue_complex]
    simp only [List.cons_append]
    rw [decValue_tag4, decComplexF_enc]
  | .vec3 v =>
    intro fuel rest h
    rw [encValue_vec3]
    simp only [List.cons_append]
    rw [decValue_tag5, decVec3F_enc]
  | .vec4 v =>
    intro fuel rest h
    rw [encValue_vec4]
    simp only [List.cons_append]
    rw [decValue_tag6, decVec4F_enc]
  | .str s => intro fuel rest h; rw [encValue_str]; exact decValue_tag7 fuel s rest
  | .instantSeqEvent e =>
    intro fuel rest h
    rw [encValue_ise]
    simp only [List.cons_append]
    rw [decValue_tag8, decISE_enc]
  | .volume v =>
    intro fuel rest h
    rw [encValue_volume] at h ⊢
    match fuel with
    | 0 => simp at h
    | fuel+1 =>
      simp only [List.cons_append]
      rw [decValue_tag9, decVolume_enc v fuel rest (by simp at h; omega)]
  | .segmentedPhantom p =>
    intro fuel rest h
    rw [encValue_seg] at h ⊢
    match fuel with
    | 0 => simp at h
    | fuel+1 =>
      simp only [List.cons_append]
      rw [decValue_tag10, decSegmentedPhantom_enc p fuel rest (by simp at h; omega)]
  | .phantomTissue t =>
    intro fuel rest h
    rw [encValue_tissue] at h ⊢
    match fuel with
    | 0 => simp at h
    | fuel+1 =>
      simp only [List.cons_append]
      rw [decValue_tag11, decPhantomTissue_enc t fuel rest (by simp at h; omega)]
  | .dict entries =>
    intro fuel rest h
    rw [encValue_dict] at h ⊢
    match fuel with
    | 0 => simp at h
    | fuel+1 =>
      simp only [List.cons_append]
      rw [decValue_tag12, decValueEntries_enc entries fuel rest (by simp at h; omega)]
  | .list items =>
    intro fuel rest h
    rw [encValue_list] at h ⊢
    match fuel with
    | 0 => simp at h
    | fuel+1 =>
      simp only [List.cons_append]
      rw [decValue_tag13, decValueList_enc items fuel rest (by simp at h; omega)]
  | .typedDict d =>
    intro fuel rest h
    rw [encValue_typedDict] at h ⊢
    match fuel with
    | 0 => simp at h
    | fuel+1 =>
      simp only [List.cons_append]
      rw [decValue_tag14, decTypedDict_enc d fuel rest (by simp at h; omega)]
  | .typedList l =>
    intro fuel rest h
    rw [encValue_typedList] at h ⊢
    match fuel with
    | 0 => simp at h
    | fuel+1 =>
      simp only [List.cons_append]
      rw [decValue_tag15, decTypedList_enc l fuel rest (by simp at h; omega)]

theorem decValueList_enc (l : ValueList) : ∀ (fuel : Nat) (rest : List Tok),
    (encValueList l).length ≤ fuel →
    decValueList fuel (encValueList l ++ rest) = some (l, rest) := by
  match l with
  | .nil => intro fuel rest h; rw [encValueList_nil]; exact decValueList_nilStep fuel rest
  | .cons hd tl =>
    intro fuel rest h
    rw [encValueList_cons] at h ⊢
    match fuel with
    | 0 => simp at h
    | fuel+1 =>
      have hb : (encValue hd).length ≤ fuel ∧ (encValueList tl).length ≤ fuel := by
        simp at h; omega
      simp only [List.cons_append, List.append_assoc]
      rw [decValueList_consStep, decValue_enc hd fuel _ hb.1]
      dsimp only
      rw [decValueList_enc tl fuel rest hb.2]

theorem decValueEntries_enc (l : ValueEntries) : ∀ (fuel : Nat) (rest : List Tok),
    (encValueEntries l).length ≤ fuel →
    decValueEntries fuel (encValueEntries l ++ rest) = some (l, rest) := by
  match l with
  | .nil => intro fuel rest h; rw [encValueEntries_nil]; exact decValueEntries_nilStep fuel rest
  | .cons k v tl =>
    intro fuel rest h
    rw [encValueEntries_cons] at h ⊢
    match fuel with
    | 0 => simp at h
    | fuel+1 =>
      have hb : (encValue v).length ≤ fuel ∧ (encValueEntries tl).length ≤ fuel := by
        simp at h; omega
      simp only [List.cons_append, List.append_assoc]
      rw [decValueEntries_consStep, decValue_enc v fuel _ hb.1]
      dsimp only
      rw [decValueEntries_enc tl fuel rest hb.2]

end

/-! ### Round trip at the `Message` level -/

theorem decToolError_enc (e : ToolError) (rest : List Tok) :
    decToolError (encToolError e ++ rest) = some (e, rest) := by
  cases e <;> rfl

theorem decMessage_values (fuel : Nat) (rest : List Tok) :
    decMessage fuel (.tag 0 :: rest) =
      match decValueEntries fuel rest with
      | Option.none => none
      | some (d, r) => some (.values d, r) := rfl

theorem decMessage_resultOk (fuel : Nat) (rest : List Tok) :
    decMessage fuel (.tag 1 :: .tag 0 :: rest) =
      match decValueEntries fuel rest with
      | Option.none => none
      | some (d, r) => some (.result (.ok d), r) := rfl

theorem decMessage_resultErr (fuel : Nat) (rest : List Tok) :
    decMessage fuel (.tag 1 :: .tag 1 :: rest) =
      match decToolError rest with
      | Option.none => none
      | some (e, r) => some (.result (.error e), r) := rfl

theorem decMessage_enc (m : Message) : ∀ (fuel : Nat) (rest : List Tok),
    (encMessage m).length ≤ fuel →
    decMessage fuel (encMessage m ++ rest) = some (m, rest) := by
  match m with
  | .values d =>
    intro fuel rest h
    show decMessage fuel (.tag 0 :: encValueEntries d ++ rest) = _
    simp only [List.cons_append]
    rw [decMessage_values, decValueEntries_enc d fuel rest (by simp [encMessage] at h; omega)]
  | .result (.ok d) =>
    intro fuel rest h
    show decMessage fuel (.tag 1 :: .tag 0 :: encValueEntries d ++ rest) = _
    simp only [List.cons_append]
    rw [decMessage_resultOk, decValueEntries_enc d fuel rest (by simp [encMessage] at h; omega)]
  | .result (.error e) =>
    intro fuel rest h
    show decMessage fuel (.tag 1 :: .tag 1 :: encToolError e ++ rest) = _
    simp only [List.cons_append]
    rw [decMessage_resultErr, decToolError_enc]
  | .message s => intro fuel rest h; rfl
  | .abort => intro fuel rest h; rfl

/-- The codec of `common.rs` is symmetric: decoding the serialized bytes of
any wire message recovers the message. -/
theorem deserialize_serialize (m : Message) :
    deserialize (compress (encMessage m)) = .ok m := by
  unfold deserialize
  rw [decompress_compress]
  dsimp only
  have hdm := decMessage_enc m ((encMessage m).length + 1) [] (by omega)
  rw [List.append_nil] at hdm
  rw [hdm]

/-! ## Path-based extraction (`src/value/extract.rs`) -/

/-- Model of `Index` in `extract.rs`: a key token for mappings or a numeric
token for lists. -/
inductive Index
  | key (s : String)
  | idx (n : Nat)

/-- Model of `Vec::get` / slice lookup used throughout `extract.rs`. -/
def vecGet {α : Type} : List α → Nat → Option α
  | [], _ => Option.none
  | x :: _, 0 => some x
  | _ :: t, n+1 => vecGet t n

/-- Model of `HashMap::get` on an association-list embedding. -/
def mapGet {α : Type} : List (String × α) → String → Option α
  | [], _ => Option.none
  | (k, v) :: t, key => if k = key then some v else mapGet t key

def ValueList.get? : ValueList → Nat → Option Value
  | .nil, _ => Option.none
  | .cons h _, 0 => some h
  | .cons _ t, n+1 => ValueList.get? t n

def ValueEntries.get? : ValueEntries → String → Option Value
  | .nil, _ => Option.none
  | .cons k v t, key => if k = key then some v else ValueEntries.get? t key

def VolumeList.get? : VolumeList → Nat → Option Volume
  | .nil, _ => Option.none
  | .cons h _, 0 => some h
  | .cons _ t, n+1 => VolumeList.get? t n

def TissueList.get? : TissueList → Nat → Option PhantomTissue
  | .nil, _ => Option.none
  | .cons h _, 0 => some h
  | .cons _ t, n+1 => TissueList.get? t n

def SegList.get? : SegList → Nat → Option SegmentedPhantom
  | .nil, _ => Option.none
  | .cons h _, 0 => some h
  | .cons _ t, n+1 => SegList.get? t n

def VolumeAList.get? : VolumeAList → String → Option Volume
  | .nil, _ => Option.none
  | .cons k v t, key => if k = key then some v else VolumeAList.get? t key

def TissueAList.get? : TissueAList → String → Option PhantomTissue
  | .nil, _ => Option.none
  | .cons k v t, key => if k = key then some v else TissueAList.get? t key

def SegAList.get? : SegAList → String → Option SegmentedPhantom
  | .nil, _ => Option.none
  | .cons k v t, key => if k = key then some v else SegAList.get? t key

/-- Model of `get_typed_list` in `extract.rs`: look the index up in whichever
homogeneous list variant is present, re-tag the element as a `Value`, and
report `IndexOutOfBounds` on a missing index. -/
def get_typed_list (list : TypedList) (idx : Nat) : Except ExtractionError Value :=
  match list with
  | .none items =>
    match vecGet items idx with
    | some _ => .ok .none
    | Option.none => .error .indexOutOfBounds
  | .bool items =>
    match vecGet items idx with
    | some b => .ok (.bool b)
    | Option.none => .error .indexOutOfBounds
  | .int items =>
    match vecGet items idx with
    | some i => .ok (.int i)
    | Option.none => .error .indexOutOfBounds
  | .float items =>
    match vecGet items idx with
    | some f => .ok (.float f)
    | Option.none => .error .indexOutOfBounds
  | .complex items =>
    match vecGet items idx with
    | some c => .ok (.complex c)
    | Option.none => .error .indexOutOfBounds
  | .vec3 items =>
    match vecGet items idx with
    | some v => .ok (.vec3 v)
    | Option.none => .error .indexOutOfBounds
  | .vec4 items =>
    match vecGet items idx with
    | some v => .ok (.vec4 v)
    | Option.none => .error .indexOutOfBounds
  | .str items =>
    match vecGet items idx with
    | some s => .ok (.str s)
    | Option.none => .error .indexOutOfBounds
  | .instantSeqEvent items =>
    match vecGet items idx with
    | some e => .ok (.instantSeqEvent e)
    | Option.none => .error .indexOutOfBounds
  | .volume items =>
    match VolumeList.get? items idx with
    | some v => .ok (.volume v)
    | Option.none => .error .indexOutOfBounds
  | .segmentedPhantom items =>
    match SegList.get? items idx with
    | some p => .ok (.segmentedPhantom p)
    | Option.none => .error .indexOutOfBounds
  | .phantomTissue items =>
    match TissueList.get? items idx with
    | some t => .ok (.phantomTissue t)
    | Option.none => .error .indexOutOfBounds

/-- Model of `get_typed_dict` in `extract.rs`; a missing key reports
`KeyNotFound`. -/
def get_typed_dict (dict : TypedDict) (key : String) : Except ExtractionError Value :=
  match dict with
  | .none items =>
    match mapGet items key with
    | some _ => .ok .none
    | Option.none => .error .keyNotFound
  | .bool items =>
    match mapGet items key with
    | some b => .ok (.bool b)
    | Option.none => .error .keyNotFound
  | .int items =>
    match mapGet items key with
    | some i => .ok (.int i)
    | Option.none => .error .keyNotFound
  | .float items =>
    match mapGet items key with
    | some f => .ok (.float f)
    | Option.none => .error .keyNotFound
  | .complex items =>
    match mapGet items key with
    | some c => .ok (.complex c)
    | Option.none => .error .keyNotFound
  | .vec3 items =>
    match mapGet items key with
    | some v => .ok (.vec3 v)
    | Option.none => .error .keyNotFound
  | .vec4 items =>
    match mapGet items key with
    | some v => .ok (.vec4 v)
    | Option.none => .error .keyNotFound
  | .str items =>
    match mapGet items key with
    | some s => .ok (.str s)
    | Option.none => .error .keyNotFound
  | .instantSeqEvent items =>
    match mapGet items key with
    | some e => .ok (.instantSeqEvent e)
    | Option.none => .error .keyNotFound
  | .volume items =>
    match VolumeAList.get? items key with
    | some v => .ok (.volume v)
    | Option.none => .error .keyNotFound
  | .segmentedPhantom items =>
    match SegAList.get? items key with
    | some p => .ok (.segmentedPhantom p)
    | Option.none => .error .keyNotFound
  | .phantomTissue items =>
    match TissueAList.get? items key with
    | some t => .ok (.phantomTissue t)
    | Option.none => .error .keyNotFound

/-- Model of `<[Index]>::get(1..)` as used by `_get`: `Some` of the tail for a
non-empty slice (including `Some(&[])` for a one-element slice), `None` for
an empty one. -/
def sliceFrom1 : List Index → Option (List Index)
  | [] => Option.none
  | _ :: tail => some tail

mutual

/-- Model of the match inside `Value::_get`, arms in source order.  The
scrutinee triple is `(self, ptr.first(), ptr.get(1..))`; the fuel argument
only serves termination and is always sufficient at the call sites below.
The two arms dispatching to `get_typed_list` / `get_typed_dict` require the
rest-of-pointer to be `None`, exactly as the source writes them. -/
def getTriple : Nat → Value → Option Index → Option (List Index) →
    Except ExtractionError Value
  | _, value, Option.none, Option.none => .ok value
  | fuel+1, .list items, some (.idx idx), rest => get_list fuel items idx rest
  | fuel+1, .dict entries, some (.key key), rest => get_dict fuel entries key rest
  | _, .typedList list, some (.idx idx), Option.none => get_typed_list list idx
  | _, .typedDict dict, some (.key key), Option.none => get_typed_dict dict key
  | _, .typedList _, some (.idx _), some _ => .error .tooMuchNesting
  | _, .typedDict _, some (.key _), some _ => .error .tooMuchNesting
  | _, .list _, some (.key _), _ => .error .keyForList
  | _, .dict _, some (.idx _), _ => .error .indexForDict
  | _, .typedList _, some (.key _), _ => .error .keyForList
  | _, .typedDict _, some (.idx _), _ => .error .indexForDict
  | _, _, some _, _ => .error .tooMuchNesting
  | _, _, Option.none, some _ => .error .tooMuchNesting

/-- Model of `get_list` in `extract.rs`: bounds-checked lookup, then the
recursive `_get` on the element with `rest.unwrap_or_default()` (the
head-and-tail computation of `_get` is inlined here). -/
def get_list : Nat → ValueList → Nat → Option (List Index) →
    Except ExtractionError Value
  | fuel, items, index, rest =>
    match ValueList.get? items index with
    | some value =>
      getTriple fuel value (rest.getD []).head? (sliceFrom1 (rest.getD []))
    | Option.none => .error .indexOutOfBounds

/-- Model of `get_dict` in `extract.rs`. -/
def get_dict : Nat → ValueEntries → String → Option (List Index) →
    Except ExtractionError Value
  | fuel, entries, key, rest =>
    match ValueEntries.get? entries key with
    | some value =>
      getTriple fuel value (rest.getD []).head? (sliceFrom1 (rest.getD []))
    | Option.none => .error .keyNotFound

end

/-- Model of `Value::_get`: dispatch on `(self, ptr.first(), ptr.get(1..))`.
One fuel unit is consumed per dynamic-collection level, and every level
strictly shortens the pointer, so `ptr.length + 1` units always suffice. -/
def Value.getPtr (v : Value) (ptr : List Index) : Except ExtractionError Value :=
  getTriple (ptr.length + 1) v ptr.head? (sliceFrom1 ptr)

/-- Model of Rust `str::split('/')` on the character list: like the source
pattern, it yields one (possibly empty) segment per separator gap, and a
single empty segment for the empty string. -/
def splitSlash : List Char → List (List Char)
  | [] => [[]]
  | c :: cs =>
    if c = '/' then [] :: splitSlash cs
    else
      match splitSlash cs with
      | seg :: segs => (c :: seg) :: segs
      | [] => [[c]]

def parseUsizeDigits : List Char → Nat → Option Nat
  | [], acc => some acc
  | c :: t, acc =>
    if c.isDigit then parseUsizeDigits t (10 * acc + (c.toNat - 48)) else Option.none

/-- Model of `str::parse::<usize>()`: an optional leading `+` sign followed
by at least one decimal digit (`usize` overflow, irrelevant to the claims,
is not modelled). -/
def parseUsize : List Char → Option Nat
  | [] => Option.none
  | '+' :: rest => if rest.isEmpty then Option.none else parseUsizeDigits rest 0
  | cs => parseUsizeDigits cs 0

/-- Model of `impl From<&str> for Pointer`: split on `/`; each element that
parses as a `usize` becomes a numeric token, every other element a key
token. -/
def Pointer.fromString (s : String) : List Index :=
  (splitSlash s.data).map fun element =>
    match parseUsize element with
    | some index => .idx index
    | Option.none => .key (String.mk element)

/-- Model of `Value::get` with a string path (`ptr.into()` then `_get`). -/
def Value.get (v : Value) (path : String) : Except ExtractionError Value :=
  v.getPtr (Pointer.fromString path)

/-! ## Buffered channel endpoints (`sync.rs` / `async.rs`)

The socket is embedded as the list of frames the peer will deliver, in
order; the end of the list is the closed stream.  For the blocking client
(`tungstenite`), `can_read()` is false exactly when no frame remains; for
the event-driven server (`axum`), `recv()` on the closed stream returns
`None`.  Transport-level read errors are outside the claims and are not
modelled; decode errors are. -/

/-- Model of `WsChannelSync` (`sync.rs`): the client-side blocking endpoint
with its single-slot buffer. -/
structure WsChannelSync where
  socket : List WsMessage
  buffer : Option Message

/-- Model of `WsChannelSync::read`: fill the buffer from the socket if it is
empty and the socket can still be read; decode failures surface as
`ParseError`. -/
def WsChannelSync.read (c : WsChannelSync) : Except ConnectionError WsChannelSync :=
  match c.buffer, c.socket with
  | Option.none, frame :: frames =>
    match Message.tryFromWs frame with
    | .ok m => .ok ⟨frames, some m⟩
    | .error e => .error (.parseError e)
  | _, _ => .ok c

/-- Model of `WsChannelSync::read_message`: take the buffer if it holds a
text message, put anything else back, and report connection-closed when the
stream is exhausted with an empty buffer. -/
def WsChannelSync.read_message (c : WsChannelSync) :
    Except ConnectionError (Option String × WsChannelSync) :=
  match c.read with
  | .error e => .error e
  | .ok c1 =>
    match c1.buffer with
    | some (.message x) => .ok (some x, { c1 with buffer := Option.none })
    | some msg => .ok (Option.none, { c1 with buffer := some msg })
    | Option.none => .error .connectionClosed

/-- Model of `WsChannelSync::read_result`. -/
def WsChannelSync.read_result (c : WsChannelSync) :
    Except ConnectionError (Option (Except ToolError ValueDict) × WsChannelSync) :=
  match c.read with
  | .error e => .error e
  | .ok c1 =>
    match c1.buffer with
    | some (.result x) => .ok (some x, { c1 with buffer := Option.none })
    | some msg => .ok (Option.none, { c1 with buffer := some msg })
    | Option.none => .error .connectionClosed

/-- Model of `WsChannelAsync` (`async.rs`): the server-side event-driven
endpoint, implementation analogous to the sync one. -/
structure WsChannelAsync where
  socket : List WsMessage
  buffer : Option Message

/-- Model of `WsChannelAsync::read`: like the sync read, except that the
closed stream is observed as `recv()` returning `None`, which leaves the
buffer empty. -/
def WsChannelAsync.read (c : WsChannelAsync) : Except ConnectionError WsChannelAsync :=
  match c.buffer, c.socket with
  | Option.none, frame :: frames =>
    match Message.tryFromWs frame with
    | .ok m => .ok ⟨frames, some m⟩
    | .error e => .error (.parseError e)
  | _, _ => .ok c

/-- Model of `WsChannelAsync::read_abort`. -/
def WsChannelAsync.read_abort (c : WsChannelAsync) :
    Except ConnectionError (Option Unit × WsChannelAsync) :=
  match c.read with
  | .error e => .error e
  | .ok c1 =>
    match c1.buffer with
    | some .abort => .ok (some (), { c1 with buffer := Option.none })
    | some msg => .ok (Option.none, { c1 with buffer := some msg })
    | Option.none => .error .connectionClosed

/-- Model of `WsChannelAsync::read_values`. -/
def WsChannelAsync.read_values (c : WsChannelAsync) :
    Except ConnectionError (Option ValueDict × WsChannelAsync) :=
  match c.read with
  | .error e => .error e
  | .ok c1 =>
    match c1.buffer with
    | some (.values x) => .ok (some x, { c1 with buffer := Option.none })
    | some msg => .ok (Option.none, { c1 with buffer := some msg })
    | Option.none => .error .connectionClosed

/-! ## Cross-thread bridge (`src/connection/channel.rs`)

The `Sender` / `Receiver` pair shares exactly two primitives: the bounded
FIFO message queue (`tokio::sync::mpsc`, capacity 1024) and the one-shot
abort slot (`tokio::sync::oneshot`).  Both halves are embedded as one
state record; each API call is a function of that state.  The blocking
enqueue is modelled as an immediate enqueue: with the receiver alive it
eventually succeeds, and with the receiver dropped it fails with the
stringified `SendError`. -/

/-- State of the one-shot abort slot as `Sender::send`'s `try_recv` can
observe it: nothing posted yet, a posted-but-unread reason, or closed
(the value was already taken, or the sender half was dropped unused). -/
inductive AbortSlot
  | empty
  | posted (reason : AbortReason)
  | closed
deriving DecidableEq

/-- Joint state of the bridge pair returned by `connect()`. -/
structure BridgeState where
  queue : List String
  receiverAlive : Bool
  slot : AbortSlot

/-- Model of `connect()`: fresh empty queue, receiver alive, empty slot. -/
def connect : BridgeState := ⟨[], true, .empty⟩

/-- Model of `Sender::send`: blocking-enqueue onto the message queue (this
fails if the `Receiver`, which owns `msg_rx`, has been dropped), then
non-blocking `try_recv` on the abort slot — a posted reason is consumed and
returned as the error, a closed slot reports `ConnectionClosed`. -/
def Sender.send (st : BridgeState) (msg : String) :
    BridgeState × Except AbortReason Unit :=
  if st.receiverAlive then
    let st1 : BridgeState := { st with queue := st.queue ++ [msg] }
    match st1.slot with
    | .posted reason => ({ st1 with slot := .closed }, .error reason)
    | .empty => (st1, .ok ())
    | .closed => (st1, .error .connectionClosed)
  else
    (st, .error (.channelError "channel closed"))

/-- Model of `Receiver::abort(self, reason)`: fulfill the one-shot slot
(ignoring failure if the `Sender` is gone), and — because `self` is consumed
— drop `msg_rx`, closing the message queue for the sender half. -/
def Receiver.abort (st : BridgeState) (reason : AbortReason) : BridgeState :=
  { st with
    receiverAlive := false
    slot := match st.slot with
            | .empty => .posted reason
            | s => s }

/-- Dropping the `Receiver` without calling `abort` (as happens when
`tool_handler` propagates an error): `msg_rx` closes and the unused
`abort_tx` closes the one-shot slot. -/
def Receiver.dropped (st : BridgeState) : BridgeState :=
  { st with
    receiverAlive := false
    slot := match st.slot with
            | .empty => .closed
            | s => s }

/-! ## Session orchestrator (`tool_handler` in `src/util.rs`) -/

/-- What one service of the abort branch of the `tokio::select!` loop in
`tool_handler` does with its `read_abort()` outcome. -/
inductive LoopOutcome
  | continueLoop
  | exitToDrain
  | earlyReturn (e : ConnectionError)

/-- Model of the abort branch of the orchestrator loop: an observed `Abort`
frame posts requested-by-client on the bridge and breaks the loop; a
mismatched frame (`Ok(None)`) continues; a read error — including
connection-closed on client disconnect — propagates out of `tool_handler`
through `?`, which drops the `Receiver` without posting an abort. -/
def handleAbortBranch (bridge : BridgeState)
    (readResult : Except ConnectionError (Option Unit)) :
    BridgeState × LoopOutcome :=
  match readResult with
  | .ok (some _) => (Receiver.abort bridge .requestedByClient, .exitToDrain)
  | .ok Option.none => (bridge, .continueLoop)
  | .error e => (Receiver.dropped bridge, .earlyReturn e)

/-- Global state of one session run for the ordering property: the sends the
worker will still perform, whether the worker has returned (dropping its
`Sender`), the bridge queue, the frames put on the wire so far, and whether
the final `Result` frame has been sent. -/
structure SessionState where
  pending : List String
  workerDone : Bool
  queue : List String
  wire : List Message
  resultSent : Bool

/-- Small-step semantics of a session in which the client sends nothing
further: the worker thread and the orchestrator loop interleave freely.
`workSend` is the worker's blocking enqueue (it can only complete while the
bounded queue has room); `workReturn` is the worker returning `res`,
dropping its `Sender`; `forward` is the loop's message branch forwarding one
queued text to the peer; `finish` is the loop observing "sender gone" on an
empty queue, joining the worker, and sending the final `Result` frame. -/
inductive SessionStep (res : Except ToolError ValueDict) :
    SessionState → SessionState → Prop
  | workSend (m : String) (pending queue : List String) (wire : List Message) :
      queue.length < 1024 →
      SessionStep res ⟨m :: pending, false, queue, wire, false⟩
        ⟨pending, false, queue ++ [m], wire, false⟩
  | workReturn (queue : List String) (wire : List Message) :
      SessionStep res ⟨[], false, queue, wire, false⟩ ⟨[], true, queue, wire, false⟩
  | forward (pending : List String) (done : Bool) (m : String)
      (queue : List String) (wire : List Message) :
      SessionStep res ⟨pending, done, m :: queue, wire, false⟩
        ⟨pending, done, queue, wire ++ [.message m], false⟩
  | finish (wire : List Message) :
      SessionStep res ⟨[], true, [], wire, false⟩
        ⟨[], true, [], wire ++ [.result res], true⟩

/-- The initial session state: the worker is about to send `msgs` in order. -/
def sessionInit (msgs : List String) : SessionState := ⟨msgs, false, [], [], false⟩

/-- Reachability under arbitrary interleaving of the session steps. -/
def SessionReachable (res : Except ToolError ValueDict) (msgs : List String)
    (s : SessionState) : Prop :=
  Relation.ReflTransGen (SessionStep res) (sessionInit msgs) s

/-! ## Claim theorems -/

/-- Recognizer for the compression-failure variant of `ParseError`. -/
def ParseError.isCompressionFailure : ParseError → Bool
  | .compressionError _ => true
  | _ => false

/-- C1.  Round-trip of the wire codec: for every `WireMessage` — in
particular `Values` frames carrying any constructible `ValueDict`, including
homogeneous typed collections and dynamic collections nested to arbitrary
depth — deserializing the bytes produced by serializing the message yields a
structurally equal message (`deserialize` after `serialize` is `Ok` of the
original). -/
theorem C1_wire_codec_roundtrip :
    ∀ m : Message, (serialize m).bind deserialize = Except.ok m := by
  intro m
  exact deserialize_serialize m

/-- C8.  Frame-kind rejection: decoding any inbound frame that is not
binary-tagged yields `WrongMessageType` with expected `Binary` and found the
actual frame kind — never a mis-parsed payload (the embedding is total, so
there is no panic to model). -/
theorem C8_frame_kind_rejection :
    ∀ w : WsMessage, wsMessageType w ≠ .binary →
      Message.tryFromWs w = .error (.wrongMessageType .binary (wsMessageType w)) := by
  intro w hw
  cases w with
  | binary raw => exact absurd rfl hw
  | text s => rfl
  | ping => rfl
  | pong => rfl
  | close => rfl

/-- Witness for C8 at a concrete text frame. -/
theorem C8_witness :
    Message.tryFromWs (.text "hello") = .error (.wrongMessageType .binary .text) :=
  C8_frame_kind_rejection (.text "hello") (by decide)

/-- C10.  The encoding direction can only fail with the serialization error
kind — on this closed message type it in fact always succeeds, producing the
compressed encoding — and no operation of the codec ever produces the
`CompressionError` variant: compression is infallible and decoding errors
are decompression or deserialization failures. -/
theorem C10_compression_error_unreachable :
    (∀ m : Message, serialize m = .ok (compress (encMessage m))) ∧
    (∀ (m : Message) (e : ParseError), serialize m ≠ .error e) ∧
    (∀ (raw : Wire) (e : ParseError), deserialize raw = .error e →
      e.isCompressionFailure = false) := by
  refine ⟨fun m => rfl, fun m e => by simp [serialize], ?_⟩
  intro raw e h
  unfold deserialize at h
  cases hd : decompress raw with
  | none =>
    rw [hd] at h
    dsimp only at h
    simp only [Except.error.injEq] at h
    rw [← h]
    rfl
  | some toks =>
    rw [hd] at h
    dsimp only at h
    cases hm : decMessage (toks.length + 1) toks with
    | none =>
      rw [hm] at h
      dsimp only at h
      simp only [Except.error.injEq] at h
      rw [← h]
      rfl
    | some p =>
      rw [hm] at h
      match p with
      | (msg, []) => exact absurd h (by simp)
      | (msg, t :: ts) =>
        dsimp only at h
        simp only [Except.error.injEq] at h
        rw [← h]
        rfl

/-- Witness for C10's error branch at a corrupt compressed stream (a run of
length zero). -/
theorem C10_witness :
    deserialize [(0, Tok.tag 0)] = .error (.decompressionError "corrupt compressed stream") ∧
    (ParseError.decompressionError "corrupt compressed stream").isCompressionFailure = false :=
  ⟨rfl, C10_compression_error_unreachable.2.2 [(0, Tok.tag 0)] _ rfl⟩

/-- C3.  Evaluation of the extraction algorithm on homogeneous collections.
The claim says a path whose final token indexes a `TypedList` returns the
tagged element; the code instead returns `TooMuchNesting` for every index
into a homogeneous collection, because `ptr.get(1..)` on a one-token pointer
is `Some(&[])`, never `None`, so the end-of-path arms of `_get` (and the
helpers `get_typed_list` / `get_typed_dict`) are unreachable.  The helper
itself would have produced the element (second conjunct), and the
continuation half of the claim — more path after a homogeneous collection is
`TooMuchNesting` — does hold (third and fourth conjuncts). -/
theorem C3_typed_collection_indexing :
    (Value.get (.typedList (.int [1, 2, 3])) "0" = .error .tooMuchNesting) ∧
    (get_typed_list (.int [1, 2, 3]) 0 = .ok (.int 1)) ∧
    (Value.get (.typedDict (.int [("a", 7)])) "a" = .error .tooMuchNesting) ∧
    (get_typed_dict (.int [("a", 7)]) "a" = .ok (.int 7)) := by
  refine ⟨?_, rfl, ?_, rfl⟩
  · show Value.getPtr (.typedList (.int [1, 2, 3])) [.idx 0] = .error .tooMuchNesting
    simp [Value.getPtr, sliceFrom1, getTriple]
  · show Value.getPtr (.typedDict (.int [("a", 7)])) [.key "a"] = .error .tooMuchNesting
    simp [Value.getPtr, sliceFrom1, getTriple]

/-- C4.  Evaluation of `get` with the empty string path.  The claim (and the
rustdoc on `Pointer`) says `get(v, "")` returns `v` unchanged; but
`"".split('/')` yields one empty token, so `Pointer::from("")` is
`[Key("")]`, and extraction with that pointer is not the identity — on an
atomic leaf it is `TooMuchNesting`.  The genuinely empty pointer (first
conjunct `getPtr` with `[]`) does return the value unchanged. -/
theorem C4_empty_path :
    (Pointer.fromString "" = [.key ""]) ∧
    (∀ v : Value, v.getPtr [] = .ok v) ∧
    (Value.get (.int 5) "" = .error .tooMuchNesting) ∧
    (Value.get (.dict .nil) "" = .error .keyNotFound) := by
  refine ⟨rfl, ?_, ?_, ?_⟩
  · intro v
    simp [Value.getPtr, sliceFrom1, getTriple]
  · show Value.getPtr (.int 5) [.key ""] = .error .tooMuchNesting
    simp [Value.getPtr, sliceFrom1, getTriple]
  · show Value.getPtr (.dict .nil) [.key ""] = .error .keyNotFound
    simp [Value.getPtr, sliceFrom1, getTriple, get_dict, ValueEntries.get?]

/-- C9.  Extraction boundary errors: out-of-bounds numeric token on a
dynamic list is `IndexOutOfBounds`; absent key on a dynamic dict is
`KeyNotFound`; any non-empty path into an atomic leaf (all eight kinds:
unit, boolean, integer, float, string, complex, 3-vector, 4-vector) is
`TooMuchNesting`;
a numeric token on a dict is `IndexForDict` and a key token on a list is
`KeyForList`; together with the three concrete examples from the spec. -/
theorem C9_extraction_boundaries :
    (∀ (items : ValueList) (n : Nat), ValueList.get? items n = Option.none →
      Value.getPtr (.list items) [.idx n] = .error .indexOutOfBounds) ∧
    (∀ (entries : ValueEntries) (k : String), ValueEntries.get? entries k = Option.none →
      Value.getPtr (.dict entries) [.key k] = .error .keyNotFound) ∧
    (∀ (i : Int) (tok : Index) (ptr : List Index),
      Value.getPtr (.int i) (tok :: ptr) = .error .tooMuchNesting) ∧
    (∀ (b : Bool) (tok : Index) (ptr : List Index),
      Value.getPtr (.bool b) (tok :: ptr) = .error .tooMuchNesting) ∧
    (∀ (f : F64) (tok : Index) (ptr : List Index),
      Value.getPtr (.float f) (tok :: ptr) = .error .tooMuchNesting) ∧
    (∀ (st : String) (tok : Index) (ptr : List Index),
      Value.getPtr (.str st) (tok :: ptr) = .error .tooMuchNesting) ∧
    (∀ (c : Complex) (tok : Index) (ptr : List Index),
      Value.getPtr (.complex c) (tok :: ptr) = .error .tooMuchNesting) ∧
    (∀ (v3 : Vec3) (tok : Index) (ptr : List Index),
      Value.getPtr (.vec3 v3) (tok :: ptr) = .error .tooMuchNesting) ∧
    (∀ (v4 : Vec4) (tok : Index) (ptr : List Index),
      Value.getPtr (.vec4 v4) (tok :: ptr) = .error .tooMuchNesting) ∧
    (∀ (tok : Index) (ptr : List Index),
      Value.getPtr .none (tok :: ptr) = .error .tooMuchNesting) ∧
    (∀ (entries : ValueEntries) (n : Nat) (ptr : List Index),
      Value.getPtr (.dict entries) (.idx n :: ptr) = .error .indexForDict) ∧
    (∀ (items : ValueList) (k : String) (ptr : List Index),
      Value.getPtr (.list items) (.key k :: ptr) = .error .keyForList) ∧
    (Value.get (.list (.cons (.int 1) (.cons (.int 2) (.cons (.int 3) .nil)))) "5"
      = .error .indexOutOfBounds) ∧
    (Value.get (.dict .nil) "k" = .error .keyNotFound) ∧
    (Value.get (.int 5) "0" = .error .tooMuchNesting) := by
  refine ⟨?_, ?_, ?_, ?_, ?_, ?_, ?_, ?_, ?_, ?_, ?_, ?_, ?_, ?_, ?_⟩
  · intro items n h
    simp [Value.getPtr, sliceFrom1, getTriple, get_list, h]
  · intro entries k h
    simp [Value.getPtr, sliceFrom1, getTriple, get_dict, h]
  · intro i tok ptr
    cases tok <;> simp [Value.getPtr, sliceFrom1, getTriple]
  · intro b tok ptr
    cases tok <;> simp [Value.getPtr, sliceFrom1, getTriple]
  · intro f tok ptr
    cases tok <;> simp [Value.getPtr, sliceFrom1, getTriple]
  · intro st tok ptr
    cases tok <;> simp [Value.getPtr, sliceFrom1, getTriple]
  · intro c tok ptr
    cases tok <;> simp [Value.getPtr, sliceFrom1, getTriple]
  · intro v3 tok ptr
    cases tok <;> simp [Value.getPtr, sliceFrom1, getTriple]
  · intro v4 tok ptr
    cases tok <;> simp [Value.getPtr, sliceFrom1, getTriple]
  · intro tok ptr
    cases tok <;> simp [Value.getPtr, sliceFrom1, getTriple]
  · intro entries n ptr
    simp [Value.getPtr, sliceFrom1, getTriple]
  · intro items k ptr
    simp [Value.getPtr, sliceFrom1, getTriple]
  · show Value.getPtr (.list (.cons (.int 1) (.cons (.int 2) (.cons (.int 3) .nil))))
        [.idx 5] = .error .indexOutOfBounds
    simp [Value.getPtr, sliceFrom1, getTriple, get_list, ValueList.get?]
  · show Value.getPtr (.dict .nil) [.key "k"] = .error .keyNotFound
    simp [Value.getPtr, sliceFrom1, getTriple, get_dict, ValueEntries.get?]
  · show Value.getPtr (.int 5) [.idx 0] = .error .tooMuchNesting
    simp [Value.getPtr, sliceFrom1, getTriple]

/-- Witness for C9's hypothesis-carrying conjuncts at concrete inputs. -/
theorem C9_witness :
    Value.getPtr (.list .nil) [.idx 5] = .error .indexOutOfBounds ∧
    Value.getPtr (.dict .nil) [.key "missing"] = .error .keyNotFound ∧
    Value.getPtr (.int 5) [.idx 0] = .error .tooMuchNesting :=
  ⟨C9_extraction_boundaries.1 .nil 5 rfl,
   C9_extraction_boundaries.2.1 .nil "missing" rfl,
   C9_extraction_boundaries.2.2.1 5 (.idx 0) []⟩

/-- C2.  Single-slot buffered read, for both endpoint variants: a buffered
message of the requested kind is returned immediately with the buffer
emptied and the socket untouched; with an empty buffer exactly one frame is
read and either returned (kind match) or stored in the buffer with
`Ok(None)` reported (kind mismatch) so that a later read of its kind
returns the frame unchanged; a closed socket with an empty buffer reports
connection-closed. -/
theorem C2_single_slot_buffered_read :
    ∀ (frames : List WsMessage) (f : WsMessage) (m : Message) (s : String)
      (r : Except ToolError ValueDict) (d : ValueDict),
      (WsChannelSync.read_message ⟨frames, some (.message s)⟩
        = .ok (some s, ⟨frames, Option.none⟩)) ∧
      (WsChannelSync.read_result ⟨frames, some (.result r)⟩
        = .ok (some r, ⟨frames, Option.none⟩)) ∧
      ((∀ x, m ≠ .message x) →
        WsChannelSync.read_message ⟨frames, some m⟩
          = .ok (Option.none, ⟨frames, some m⟩)) ∧
      (Message.tryFromWs f = .ok (.message s) →
        WsChannelSync.read_message ⟨f :: frames, Option.none⟩
          = .ok (some s, ⟨frames, Option.none⟩)) ∧
      (Message.tryFromWs f = .ok m → (∀ x, m ≠ .message x) →
        WsChannelSync.read_message ⟨f :: frames, Option.none⟩
          = .ok (Option.none, ⟨frames, some m⟩)) ∧
      (Message.tryFromWs f = .ok m → (∀ x, m ≠ .result x) →
        WsChannelSync.read_result ⟨f :: frames, Option.none⟩
          = .ok (Option.none, ⟨frames, some m⟩)) ∧
      (WsChannelSync.read_message ⟨[], Option.none⟩ = .error .connectionClosed) ∧
      (WsChannelSync.read_result ⟨[], Option.none⟩ = .error .connectionClosed) ∧
      (WsChannelAsync.read_values ⟨frames, some (.values d)⟩
        = .ok (some d, ⟨frames, Option.none⟩)) ∧
      (WsChannelAsync.read_abort ⟨frames, some .abort⟩
        = .ok (some (), ⟨frames, Option.none⟩)) ∧
      (m ≠ .abort →
        WsChannelAsync.read_abort ⟨frames, some m⟩
          = .ok (Option.none, ⟨frames, some m⟩)) ∧
      (Message.tryFromWs f = .ok m → m ≠ .abort →
        WsChannelAsync.read_abort ⟨f :: frames, Option.none⟩
          = .ok (Option.none, ⟨frames, some m⟩)) ∧
      (WsChannelAsync.read_abort ⟨[], Option.none⟩ = .error .connectionClosed) ∧
      (WsChannelAsync.read_values ⟨[], Option.none⟩ = .error .connectionClosed) := by
  intro frames f m s r d
  refine ⟨rfl, rfl, ?_, ?_, ?_, ?_, rfl, rfl, rfl, rfl, ?_, ?_, rfl, rfl⟩
  · intro hm
    cases m with
    | message x => exact absurd rfl (hm x)
    | values d0 => rfl
    | result r0 => rfl
    | abort => rfl
  · intro hf
    simp [WsChannelSync.read_message, WsChannelSync.read, hf]
  · intro hf hm
    simp only [WsChannelSync.read_message, WsChannelSync.read, hf]
  · intro hf hm
    simp only [WsChannelSync.read_result, WsChannelSync.read, hf]
  · intro hm
    cases m with
    | abort => exact absurd rfl hm
    | values d0 => rfl
    | result r0 => rfl
    | message s0 => rfl
  · intro hf hm
    simp only [WsChannelAsync.read_abort, WsChannelAsync.read, hf]

/-- Witness for C2: a binary frame decoding to `Abort` is buffered by a
mismatched `read_message` and the buffered `Abort` is then consumed by
`read_abort`. -/
theorem C2_witness :
    WsChannelSync.read_message ⟨[.binary [(1, Tok.tag 3)]], Option.none⟩
      = .ok (Option.none, ⟨[], some .abort⟩) ∧
    WsChannelAsync.read_abort ⟨[], some .abort⟩ = .ok (some (), ⟨[], Option.none⟩) := by
  have h := C2_single_slot_buffered_read [] (.binary [(1, Tok.tag 3)]) .abort "a"
    (.ok ValueEntries.nil) ValueEntries.nil
  exact ⟨h.2.2.2.2.1 rfl (fun x hx => nomatch hx), h.2.2.2.2.2.2.2.2.2.1⟩

/-! ### The session ordering invariant (C5) -/

/-- Invariant of the session transition system: some prefix `sent` of the
worker's messages has been forwarded to the wire in order, the rest is split
between the bridge queue and the worker's pending sends, and the `Result`
frame appears exactly when the session has finished. -/
def sessionInv (res : Except ToolError ValueDict) (msgs : List String)
    (s : SessionState) : Prop :=
  ∃ sent : List String,
    msgs = sent ++ s.queue ++ s.pending ∧
    s.wire = sent.map Message.message ++
      (if s.resultSent then [Message.result res] else []) ∧
    (s.workerDone = true → s.pending = []) ∧
    (s.resultSent = true → s.queue = [] ∧ s.workerDone = true)

theorem sessionInv_init (res : Except ToolError ValueDict) (msgs : List String) :
    sessionInv res msgs (sessionInit msgs) :=
  ⟨[], by simp [sessionInit], by simp [sessionInit], by simp [sessionInit],
    by simp [sessionInit]⟩

theorem sessionInv_step (res : Except ToolError ValueDict) (msgs : List String)
    {s s' : SessionState} (hstep : SessionStep res s s')
    (hinv : sessionInv res msgs s) : sessionInv res msgs s' := by
  obtain ⟨sent, h1, h2, h3, h4⟩ := hinv
  cases hstep with
  | workSend m pending queue wire hq =>
    refine ⟨sent, ?_, ?_, by simp, by simp⟩
    · simp only at h1 ⊢
      simp [h1]
    · simpa using h2
  | workReturn queue wire =>
    exact ⟨sent, by simpa using h1, by simpa using h2, by simp, by simp⟩
  | forward pending done m queue wire =>
    refine ⟨sent ++ [m], ?_, ?_, ?_, by simp⟩
    · simp only at h1 ⊢
      simp [h1]
    · simp only at h2 ⊢
      simp [h2]
    · simpa using h3
  | finish wire =>
    refine ⟨sent, by simpa using h1, ?_, by simp, by simp⟩
    simp only at h2 ⊢
    simp [h2]

theorem sessionReachable_inv (res : Except ToolError ValueDict) (msgs : List String)
    {s : SessionState} (h : SessionReachable res msgs s) : sessionInv res msgs s := by
  induction h with
  | refl => exact sessionInv_init res msgs
  | tail hsteps hstep ih => exact sessionInv_step res msgs hstep ih

/-- C5.  Outbound ordering: in every run in which the worker performs its
sends in order and then returns `res`, and under every interleaving of the
orchestrator loop with the worker, a state in which the final `Result` frame
has been sent has exactly the worker's text messages on the wire, in order,
followed by the single `Result` frame — so the `Result` is sent only after
every previously-enqueued text message has been forwarded. -/
theorem C5_outbound_ordering :
    ∀ (res : Except ToolError ValueDict) (msgs : List String) (s : SessionState),
      SessionReachable res msgs s → s.resultSent = true →
      s.wire = msgs.map Message.message ++ [Message.result res] := by
  intro res msgs s hreach hr
  obtain ⟨sent, h1, h2, h3, h4⟩ := sessionReachable_inv res msgs hreach
  obtain ⟨hq, hd⟩ := h4 hr
  have hp : s.pending = [] := h3 hd
  rw [hq, hp] at h1
  simp only [List.append_nil] at h1
  rw [h2, hr, ← h1]
  simp

/-- Witness for C5: the concrete run `send "1"; send "2"; send "3"; return`
with one scheduling, reaching the terminal state, whose wire is exactly
`TextMessage 1, TextMessage 2, TextMessage 3, Result`. -/
theorem C5_witness :
    SessionReachable (.ok ValueEntries.nil) ["1", "2", "3"]
      ⟨[], true, [],
        [.message "1", .message "2", .message "3", .result (.ok ValueEntries.nil)],
        true⟩ ∧
    (⟨[], true, [],
        [.message "1", .message "2", .message "3", .result (.ok ValueEntries.nil)],
        true⟩ : SessionState).wire
      = ["1", "2", "3"].map Message.message
        ++ [Message.result (.ok ValueEntries.nil)] := by
  have hreach : SessionReachable (.ok ValueEntries.nil) ["1", "2", "3"]
      ⟨[], true, [],
        [.message "1", .message "2", .message "3", .result (.ok ValueEntries.nil)],
        true⟩ := by
    refine Relation.ReflTransGen.head
      (SessionStep.workSend "1" ["2", "3"] [] [] (by decide)) ?_
    refine Relation.ReflTransGen.head
      (SessionStep.workSend "2" ["3"] ["1"] [] (by decide)) ?_
    refine Relation.ReflTransGen.head
      (SessionStep.workSend "3" [] ["1", "2"] [] (by decide)) ?_
    refine Relation.ReflTransGen.head
      (SessionStep.workReturn ["1", "2", "3"] []) ?_
    refine Relation.ReflTransGen.head
      (SessionStep.forward [] true "1" ["2", "3"] []) ?_
    refine Relation.ReflTransGen.head
      (SessionStep.forward [] true "2" ["3"] [.message "1"]) ?_
    refine Relation.ReflTransGen.head
      (SessionStep.forward [] true "3" [] [.message "1", .message "2"]) ?_
    refine Relation.ReflTransGen.head
      (SessionStep.finish [.message "1", .message "2", .message "3"]) ?_
    exact Relation.ReflTransGen.refl
  exact ⟨hreach, C5_outbound_ordering (.ok ValueEntries.nil) ["1", "2", "3"] _ hreach rfl⟩

/-- C6 counterexample.  A client disconnect mid-`Running` is observed by the
orchestrator loop as `read_abort` returning connection-closed; the loop then
does not treat this like an explicit abort: the early-return path drops the
`Receiver` without posting, so the bridge state differs from the
explicit-abort state and the worker's next send does not observe the
requested-by-client reason. -/
theorem C6_counterexample :
    (WsChannelAsync.read_abort ⟨[], Option.none⟩ = .error .connectionClosed) ∧
    (handleAbortBranch connect (.error .connectionClosed)
      = (Receiver.dropped connect, .earlyReturn .connectionClosed)) ∧
    ¬((handleAbortBranch connect (.error .connectionClosed)).1
        = Receiver.abort connect .requestedByClient ∧
      (Sender.send (handleAbortBranch connect (.error .connectionClosed)).1 "x").2
        = .error .requestedByClient) := by
  refine ⟨rfl, rfl, ?_⟩
  rintro ⟨hstate, hsend⟩
  simp [handleAbortBranch, Receiver.dropped, connect, Sender.send] at hsend

/-- C6 as amended.  If the client disconnects mid-`Running` without sending
`Abort`, the loop's abort read yields connection-closed, which
`tool_handler` propagates without posting an abort; dropping the `Receiver`
closes both bridge channels, so the worker's next send still fails — the
worker is told to stop — but with the channel-error reason, not with a
posted requested-by-client abort. -/
theorem C6_disconnect_drops_receiver :
    ∀ (st : BridgeState) (msg : String),
      st.receiverAlive = true → st.slot = .empty →
      (WsChannelAsync.read_abort ⟨[], Option.none⟩ = .error .connectionClosed) ∧
      handleAbortBranch st (.error .connectionClosed)
        = (Receiver.dropped st, .earlyReturn .connectionClosed) ∧
      (Receiver.dropped st).slot = .closed ∧
      (Sender.send (Receiver.dropped st) msg).2
        = .error (.channelError "channel closed") := by
  intro st msg halive hslot
  refine ⟨rfl, rfl, ?_, ?_⟩
  · simp [Receiver.dropped, hslot]
  · simp [Sender.send, Receiver.dropped]

/-- Witness for C6 as amended, at the fresh bridge state. -/
theorem C6_witness :
    (Receiver.dropped connect).slot = .closed ∧
    (Sender.send (Receiver.dropped connect) "x").2
      = .error (.channelError "channel closed") := by
  have h := C6_disconnect_drops_receiver connect "x" rfl rfl
  exact ⟨h.2.2.1, h.2.2.2⟩

/-- C7.  Evaluation of the bridge at the claim's scenario: after
`post_abort(RequestedByClient)` — which consumes the `Receiver` and thereby
drops `msg_rx` — the next `Sender::send` fails at the enqueue step with the
channel-error reason: the message is not delivered (the queue stays empty)
and the posted reason is never read from the one-shot slot.  This
contradicts the claim (and the doc comment on `Receiver::abort`) that a
subsequent send still delivers its message and returns the posted reason. -/
theorem C7_send_after_abort_eval :
    (Receiver.abort connect .requestedByClient
      = { queue := [], receiverAlive := false, slot := .posted .requestedByClient }) ∧
    (Sender.send (Receiver.abort connect .requestedByClient) "x"
      = (Receiver.abort connect .requestedByClient,
         .error (.channelError "channel closed"))) ∧
    ((Sender.send (Receiver.abort connect .requestedByClient) "x").1.queue = []) ∧
    ((Sender.send (Receiver.abort connect .requestedByClient) "x").2
      ≠ .error .requestedByClient) := by
  refine ⟨rfl, rfl, rfl, ?_⟩
  intro h
  simp [Sender.send, Receiver.abort, connect] at h

end ToolApi
